import Mathlib

/-!
ShearForceAligned: the ERK / self-propulsion SRN model with velocity alignment.

A shallow embedding of

* `src/odes/ErkPropulsionOdeSystemVelocityAlignment.{hpp,cpp}` (the ODE system), and
* `src/cell/srn/ErkPropulsionSrnModelVelocityAlignment.{hpp,cpp}` (the per-cell driver),

followed by theorems about them.

Conventions of the embedding.

* A C++ `double` is an exact number of an ordered field `α` (rounding, underflow and
  overflow are not modelled), or the marker `Dbl.nonfinite` for an infinity or a NaN that
  a division by zero, a square root of a negative number or a non-finite operand gives.
  A `fin` result therefore says nothing about overflow of the machine number.
  Parameters and time steps are finite (`α`); state and derivative entries are `Dbl α`.
* `sqrt` and `sin` of `<cmath>` are the two fields of a `Libm α` record, so that every
  definition stays executable; theorems about real numbers instantiate it with
  `Real.sqrt` and `Real.sin`.
* A C++ exception, a failed `assert` and a read outside a vector are the `Failure`
  values of an `Except` result.
* The process-wide singletons (`RandomNumberGenerator`, `SimulationTime`) and the cell
  a driver is attached to are explicit arguments.
-/

set_option linter.unusedVariables false
set_option linter.unusedSectionVars false

namespace ShearForceAligned

/-! ## Numbers -/

/-- A `double` in exact arithmetic: `fin x` is the finite value `x`, `nonfinite` is an
infinity or a NaN. -/
inductive Dbl (α : Type) where
  | fin (x : α)
  | nonfinite
  deriving DecidableEq, Repr

/-- The two `<cmath>` functions the ODE system calls, on finite arguments. -/
structure Libm (α : Type) where
  sqrt : α → α
  sin : α → α

namespace Dbl

variable {α : Type}

/-- Lifts a binary operation on finite values; a non-finite operand gives a non-finite
result (`inf + x`, `inf * 0 = NaN`, `NaN * x`, ... are all non-finite).  The result on
finite operands is the exact one: an overflow of the machine sum, difference or product
to an infinity is not modelled. -/
def map₂ (f : α → α → α) : Dbl α → Dbl α → Dbl α
  | fin x, fin y => fin (f x y)
  | _, _ => nonfinite

instance [Add α] : Add (Dbl α) := ⟨map₂ (· + ·)⟩

instance [Sub α] : Sub (Dbl α) := ⟨map₂ (· - ·)⟩

instance [Mul α] : Mul (Dbl α) := ⟨map₂ (· * ·)⟩

/-- Unary minus. -/
def neg [Neg α] : Dbl α → Dbl α
  | fin x => fin (-x)
  | nonfinite => nonfinite

instance [Neg α] : Neg (Dbl α) := ⟨neg⟩

/-- Division `x / y` by a finite `y`: dividing by zero gives an infinity or a NaN.  The
quotient by a non-zero `y` is the exact one: an overflow of the machine quotient (a
divisor near zero) is not modelled. -/
def divBy [Div α] [Zero α] [DecidableEq α] (x : Dbl α) (y : α) : Dbl α :=
  match x with
  | fin a => if y = 0 then nonfinite else fin (a / y)
  | nonfinite => nonfinite

/-- Library `sqrt`: a NaN on a negative argument. -/
def sqrt [LT α] [Zero α] [DecidableRel (fun (a b : α) => a < b)] (libm : Libm α) :
    Dbl α → Dbl α
  | fin x => if x < 0 then nonfinite else fin (libm.sqrt x)
  | nonfinite => nonfinite

/-- Library `sin`: a NaN on an infinity or a NaN. -/
def sin (libm : Libm α) : Dbl α → Dbl α
  | fin x => fin (libm.sin x)
  | nonfinite => nonfinite

/-- Library `pow(x, n)` for a whole exponent `n` (the source calls `pow(erk, 3.0)`).  The
power of a finite base is the exact one: an overflow of the machine power is not
modelled. -/
def pow [Monoid α] (x : Dbl α) (n : Nat) : Dbl α :=
  match x with
  | fin a => fin (a ^ n)
  | nonfinite => nonfinite

/-- Whether the value is finite. -/
def isFinite : Dbl α → Bool
  | fin _ => true
  | nonfinite => false

end Dbl

open Dbl (fin nonfinite)

/-! ## Failures -/

/-- The ways a call can end without a result. -/
inductive Failure where
  /-- The solver set-up assertion of the driver's constructor failed. -/
  | ConfigurationError
  /-- The cell's data store has no item under the key. -/
  | MissingParameterError (key : String)
  /-- A zero step size or relaxation time was rejected. -/
  | DomainError
  /-- The name table of the ODE system has no parameter of that name. -/
  | UnknownParameterName (name : String)
  /-- A vector of the wrong size was passed as state vector. -/
  | SizeMismatch
  /-- An assertion that a pointer is not null failed. -/
  | NullPointer
  /-- A vector was read or written outside its size. -/
  | OutOfRange
  deriving DecidableEq, Repr

/-- Reads `v[i]` of a `std::vector`. -/
def vecAt {β : Type} (v : List β) (i : Nat) : Except Failure β :=
  match v.get? i with
  | some x => .ok x
  | none => .error .OutOfRange

/-- Writes `v[i] = x` of a `std::vector`. -/
def vecSet {β : Type} (v : List β) (i : Nat) (x : β) : Except Failure (List β) :=
  if i < v.length then .ok (v.set i x) else .error .OutOfRange

/-! ## The ODE system -/

section OdeSystem

variable {α : Type} [LinearOrderedField α]

/-- Method `ErkPropulsionOdeSystemVelocityAlignment::EvaluateYDerivatives`
(`ErkPropulsionOdeSystemVelocityAlignment.cpp`, lines 81-109).  `deviate` is the value
of the one `StandardNormalRandomDeviate()` call in the body; the result is what the
three writes leave in `rDY[0..2]`. -/
def EvaluateYDerivatives (libm : Libm α) (mParameters : List α) (time : α)
    (rY : List (Dbl α)) (deviate : α) : Except Failure (List (Dbl α)) := do
  let theta ← vecAt rY 0
  let erk ← vecAt rY 1
  let target_area ← vecAt rY 2
  let area ← vecAt mParameters 0
  let taul ← vecAt mParameters 1
  let a ← vecAt mParameters 2
  let b ← vecAt mParameters 3
  let eta_std ← vecAt mParameters 4
  let dt_ode ← vecAt mParameters 5
  let theta_vi ← vecAt mParameters 6
  let K ← vecAt mParameters 7
  let dTheta := fin eta_std * Dbl.sqrt libm (fin 2) * Dbl.sqrt libm (Dbl.divBy (fin 1) dt_ode)
      * fin deviate + fin K * Dbl.sin libm (fin theta_vi - theta)
  let dErk := -erk - Dbl.pow erk 3 + fin b * (fin area - fin 1)
  let dTargetArea := Dbl.divBy ((fin 1 - target_area) - fin a * erk) taul
  pure [dTheta, dErk, dTargetArea]

/-- The name table of an ODE system (`CellwiseOdeSystemInformation<...>`): names, units
and default initial conditions of the state variables, names and units of the
parameters. -/
structure OdeSystemInformation (α : Type) where
  mVariableNames : List String
  mVariableUnits : List String
  mInitialConditions : List α
  mParameterNames : List String
  mParameterUnits : List String
  mInitialised : Bool
  deriving DecidableEq

/-- Method `CellwiseOdeSystemInformation<ErkPropulsionOdeSystemVelocityAlignment>::Initialise`
(`ErkPropulsionOdeSystemVelocityAlignment.cpp`, lines 111-154): the `push_back` calls in
their order, on the empty tables. -/
def CellwiseOdeSystemInformation.Initialise : OdeSystemInformation α :=
  { mVariableNames := ["Theta", "Erk", "Target Area"]
    mVariableUnits := ["non-dim", "non-dim", "non-dim"]
    mInitialConditions := [0, 0, 0]
    mParameterNames := ["Cell Area", "taul", "alpha", "beta", "Eta Std", "dt_ode",
      "theta_vi", "K"]
    mParameterUnits := ["non-dim", "non-dim", "non-dim", "non-dim", "non-dim", "non-dim",
      "non-dim", "non-dim"]
    mInitialised := true }

/-- Modelled from the spec: the loop of the base class's `GetParameterIndex`, not under
`src/` (section 9, "positional parameter-vector addressing via a side name table"): walks
the names from `index` on until one equals `rName`, character for character. -/
def findParameterName (rName : String) : List String → Nat → Option Nat
  | [], _ => none
  | name :: rest, index =>
    if name = rName then some index else findParameterName rName rest (index + 1)

/-- Modelled from the spec: the base class's `GetParameterIndex(rName)`, not under `src/`:
the position of the name in the name table, an exception when the table does not hold
it. -/
def OdeSystemInformation.GetParameterIndex (info : OdeSystemInformation α)
    (rName : String) : Except Failure Nat :=
  match findParameterName rName info.mParameterNames 0 with
  | some index => .ok index
  | none => .error (.UnknownParameterName rName)

/-- Modelled from the spec: the base class's `SetDefaultInitialCondition(index, value)`,
not under `src/`: writes the default initial condition of state variable `index`, that
is `mInitialConditions.at(index) = value`. -/
def OdeSystemInformation.SetDefaultInitialCondition (info : OdeSystemInformation α)
    (index : Nat) (initialCondition : α) : Except Failure (OdeSystemInformation α) := do
  let conditions ← vecSet info.mInitialConditions index initialCondition
  pure { info with mInitialConditions := conditions }

/-- The data of an `ErkPropulsionOdeSystemVelocityAlignment` object (the members of
`AbstractOdeSystem` the sources use). -/
structure ErkPropulsionOdeSystemVelocityAlignment (α : Type) where
  mNumberOfStateVariables : Nat
  mpSystemInfo : OdeSystemInformation α
  mStateVariables : List (Dbl α)
  mParameters : List α

namespace ErkPropulsionOdeSystemVelocityAlignment

/-- Modelled from the spec: the base class's `SetStateVariables(rStateVariables)`, not
under `src/` (section 3, "state length fixed at 3"): an exception unless the vector has
`mNumberOfStateVariables` entries, otherwise an entry by entry copy. -/
def SetStateVariables (sys : ErkPropulsionOdeSystemVelocityAlignment α)
    (rStateVariables : List (Dbl α)) :
    Except Failure (ErkPropulsionOdeSystemVelocityAlignment α) :=
  if sys.mNumberOfStateVariables ≠ rStateVariables.length then .error .SizeMismatch
  else .ok { sys with mStateVariables := rStateVariables }

/-- Modelled from the spec: the base class's `SetParameter(rName, value)`, not under
`src/` (section 4.3, named scalars go "into fixed parameter-vector slots"):
`mParameters[GetParameterIndex(rName)] = value`. -/
def SetParameter (sys : ErkPropulsionOdeSystemVelocityAlignment α) (rName : String)
    (value : α) : Except Failure (ErkPropulsionOdeSystemVelocityAlignment α) := do
  let index ← sys.mpSystemInfo.GetParameterIndex rName
  let parameters ← vecSet sys.mParameters index value
  pure { sys with mParameters := parameters }

/-- Modelled from the spec: the base class's `GetParameter(rName)`, not under `src/`:
`mParameters[GetParameterIndex(rName)]`. -/
def GetParameter (sys : ErkPropulsionOdeSystemVelocityAlignment α) (rName : String) :
    Except Failure α := do
  let index ← sys.mpSystemInfo.GetParameterIndex rName
  vecAt sys.mParameters index

/-- The constructor `ErkPropulsionOdeSystemVelocityAlignment(stateVariables)`
(`ErkPropulsionOdeSystemVelocityAlignment.cpp`, lines 39-75): base `AbstractOdeSystem(3)`,
a fresh name table, three `SetDefaultInitialCondition(1, 1.0)` calls, eight `push_back`s
on `mParameters`, and `SetStateVariables` when a non-empty vector was passed. -/
def new (stateVariables : List (Dbl α)) :
    Except Failure (ErkPropulsionOdeSystemVelocityAlignment α) := do
  let info : OdeSystemInformation α := CellwiseOdeSystemInformation.Initialise
  let info ← info.SetDefaultInitialCondition 1 1.0
  let info ← info.SetDefaultInitialCondition 1 1.0
  let info ← info.SetDefaultInitialCondition 1 1.0
  let sys : ErkPropulsionOdeSystemVelocityAlignment α :=
    { mNumberOfStateVariables := 3
      mpSystemInfo := info
      mStateVariables := []
      mParameters := [1.0, 1.0, 1.0, 1.0, 0.1, 0.01, 0.0, 0.0] }
  if stateVariables ≠ [] then sys.SetStateVariables stateVariables else pure sys

/-- Function `save_construct_data` (`ErkPropulsionOdeSystemVelocityAlignment.hpp`, lines 105-111):
appends the state vector to the archive. -/
def save_construct_data (ar : List (List (Dbl α)))
    (t : ErkPropulsionOdeSystemVelocityAlignment α) : List (List (Dbl α)) :=
  ar ++ [t.mStateVariables]

/-- Function `load_construct_data` (`ErkPropulsionOdeSystemVelocityAlignment.hpp`, lines 116-125):
reads one vector from the archive and constructs the system from it; the result is the
system and the rest of the archive. -/
def load_construct_data (ar : List (List (Dbl α))) :
    Except Failure (ErkPropulsionOdeSystemVelocityAlignment α × List (List (Dbl α))) :=
  match ar with
  | [] => .error .OutOfRange
  | state_variables :: rest => do
    let t ← new state_variables
    pure (t, rest)

end ErkPropulsionOdeSystemVelocityAlignment

end OdeSystem

/-! ## Random deviates, the cell's data store, the solver -/

section Driver

variable {α : Type} [LinearOrderedField α] [FloorRing α]

/-- The process-wide `RandomNumberGenerator`: the seeded sequence of standard normal
deviates and how many of them have been drawn. -/
structure RandomNumberGenerator (α : Type) where
  deviates : Nat → α
  drawn : Nat

/-- Method `RandomNumberGenerator::StandardNormalRandomDeviate()`: the next deviate of the
sequence. -/
def RandomNumberGenerator.StandardNormalRandomDeviate (rng : RandomNumberGenerator α) :
    α × RandomNumberGenerator α :=
  (rng.deviates rng.drawn, { rng with drawn := rng.drawn + 1 })

/-- The cell's data store (`CellData`): items by key. -/
abbrev CellData (α : Type) := String → Option α

/-- The store that holds the listed items. -/
def CellData.ofList (items : List (String × α)) : CellData α :=
  fun key => items.lookup key

/-- Modelled from the spec: `CellData::GetItem(key)` is not under `src/` (section 4.3, "a
missing key fails with MissingParameterError"): the item under the key, a failure when
the store has none. -/
def CellData.GetItem (data : CellData α) (key : String) : Except Failure α :=
  match data key with
  | some value => .ok value
  | none => .error (.MissingParameterError key)

/-- The step-size policy of an ODE solver. -/
inductive SolverKind where
  /-- The `EulerIvpOdeSolver`, fixed step. -/
  | Euler
  /-- Another solver with a fixed step. -/
  | OtherFixedStep
  /-- A solver with an adaptive (variable) step. -/
  | VariableStep
  deriving DecidableEq, Repr

/-- A cell-cycle-model ODE solver object (`AbstractCellCycleModelOdeSolver`): which
solver it wraps and whether it has been set up. -/
structure CellCycleModelOdeSolver where
  kind : SolverKind
  mIsSetUp : Bool
  deriving DecidableEq, Repr

/-- The singleton `CellCycleModelOdeSolver<ErkPropulsionSrnModelVelocityAlignment,
EulerIvpOdeSolver>::Instance()` before its `Initialise()`. -/
def CellCycleModelOdeSolver.Instance : CellCycleModelOdeSolver :=
  { kind := .Euler, mIsSetUp := false }

/-- Modelled from the spec: the solver's `Initialise()` is not under `src/` (section 4.4,
the default solver is bound so that it is "properly set up"): sets the solver up. -/
def CellCycleModelOdeSolver.Initialise (solver : CellCycleModelOdeSolver) :
    CellCycleModelOdeSolver :=
  { solver with mIsSetUp := true }

/-- Modelled from the spec: the solver's `IsSetUp()` is not under `src/`: whether the
solver has been set up. -/
def CellCycleModelOdeSolver.IsSetUp (solver : CellCycleModelOdeSolver) : Bool :=
  solver.mIsSetUp

/-- Modelled from the spec: one sub-step of the fixed-step solver, which is not under
`src/` (section 4.2): `state += derivativeFn(t, state, parameters, randomSource.next())
· stepDt`, with exactly one draw. -/
def eulerSubStep (libm : Libm α) (parameters : List α) (t stepDt : α)
    (state : List (Dbl α)) (rng : RandomNumberGenerator α) :
    Except Failure (List (Dbl α) × RandomNumberGenerator α) := do
  let (deviate, rng) := rng.StandardNormalRandomDeviate
  let derivative ← EvaluateYDerivatives libm parameters t state deviate
  pure (List.zipWith (fun y dy => y + dy * fin stepDt) state derivative, rng)

/-- Modelled from the spec: the sub-steps of `Advance` (section 4.2), `steps` of them
from time `t`, each of length `stepDt` or, for the last one, of what remains up to
`toTime`. -/
def advanceSteps (libm : Libm α) (parameters : List α) (toTime stepDt : α) :
    Nat → α → List (Dbl α) → RandomNumberGenerator α →
    Except Failure (List (Dbl α) × RandomNumberGenerator α)
  | 0, _, state, rng => pure (state, rng)
  | steps + 1, t, state, rng => do
    let h := min stepDt (toTime - t)
    let (state, rng) ← eulerSubStep libm parameters t h state rng
    advanceSteps libm parameters toTime stepDt steps (t + h) state rng

/-- Modelled from the spec: `Advance(state, parameters, fromTime, toTime, stepDt, ...)`
of the fixed-step solver, which is not under `src/` (section 4.2): the state after the
sub-steps that cover `fromTime .. toTime`.  A step that is not positive cannot cover
the interval and is refused (section 7, "zero step size"). -/
def Advance (libm : Libm α) (state : List (Dbl α)) (parameters : List α)
    (fromTime toTime stepDt : α) (rng : RandomNumberGenerator α) :
    Except Failure (List (Dbl α) × RandomNumberGenerator α) :=
  if stepDt ≤ 0 then .error .DomainError
  else advanceSteps libm parameters toTime stepDt ⌈(toTime - fromTime) / stepDt⌉₊
    fromTime state rng

/-- Modelled from the spec: `steps` updates `state += derivativeFn(t, state, parameters,
randomSource.next()) · stepDt` of the fixed-step solver, which is not under `src/`
(section 4.2), each of the full length `stepDt`, from time `t`. -/
def fixedStepUpdates (libm : Libm α) (parameters : List α) (stepDt : α) :
    Nat → α → List (Dbl α) → RandomNumberGenerator α →
    Except Failure (List (Dbl α) × RandomNumberGenerator α)
  | 0, _, state, rng => pure (state, rng)
  | steps + 1, t, state, rng => do
    let (state, rng) ← eulerSubStep libm parameters t stepDt state rng
    fixedStepUpdates libm parameters stepDt steps (t + stepDt) state rng

/-! ## The per-cell driver -/

/-- The data of an `ErkPropulsionSrnModelVelocityAlignment` object: the members of
`AbstractOdeSrnModel` the sources use.  `mpOdeSystem` is `none` for a null pointer (the
driver is not yet initialised). -/
structure ErkPropulsionSrnModelVelocityAlignment (α : Type) where
  mpOdeSolver : CellCycleModelOdeSolver
  mpOdeSystem : Option (ErkPropulsionOdeSystemVelocityAlignment α)
  mLastTime : α
  mDt : α

namespace ErkPropulsionSrnModelVelocityAlignment

/-- The `assert(mpOdeSystem != nullptr)` of the methods, followed by the dereference. -/
def odeSystem (self : ErkPropulsionSrnModelVelocityAlignment α) :
    Except Failure (ErkPropulsionOdeSystemVelocityAlignment α) :=
  match self.mpOdeSystem with
  | some sys => .ok sys
  | none => .error .NullPointer

/-- The constructor `ErkPropulsionSrnModelVelocityAlignment(pOdeSolver)`
(`ErkPropulsionSrnModelVelocityAlignment.cpp`, lines 37-49).  `pOdeSolver = none` is the
null shared pointer; `currentTime` and `dt` are the start time and solver step the base
class records. -/
def new (pOdeSolver : Option CellCycleModelOdeSolver) (currentTime dt : α) :
    Except Failure (ErkPropulsionSrnModelVelocityAlignment α) :=
  let mpOdeSolver :=
    match pOdeSolver with
    | none => CellCycleModelOdeSolver.Instance.Initialise
    | some solver => solver
  if mpOdeSolver.IsSetUp then
    .ok { mpOdeSolver := mpOdeSolver, mpOdeSystem := none, mLastTime := currentTime,
          mDt := dt }
  else .error .ConfigurationError

/-- The copy constructor (`ErkPropulsionSrnModelVelocityAlignment.cpp`, lines 51-70): the
base class copies solver, last time and step; the ODE system is a new one constructed
from the state vector of the ODE system of `rModel`. -/
def copy (rModel : ErkPropulsionSrnModelVelocityAlignment α) :
    Except Failure (ErkPropulsionSrnModelVelocityAlignment α) := do
  let parent ← rModel.odeSystem
  let sys ← ErkPropulsionOdeSystemVelocityAlignment.new parent.mStateVariables
  pure { mpOdeSolver := rModel.mpOdeSolver, mpOdeSystem := some sys,
         mLastTime := rModel.mLastTime, mDt := rModel.mDt }

/-- Method `CreateSrnModel()` (lines 72-75): `new ErkPropulsionSrnModelVelocityAlignment(*this)`.
The result is the receiver after the call and the new driver. -/
def CreateSrnModel (self : ErkPropulsionSrnModelVelocityAlignment α) :
    Except Failure (ErkPropulsionSrnModelVelocityAlignment α ×
      ErkPropulsionSrnModelVelocityAlignment α) := do
  let child ← copy self
  pure (self, child)

/-- Method `UpdateSrnAreas()` (lines 93-101). -/
def UpdateSrnAreas (self : ErkPropulsionSrnModelVelocityAlignment α)
    (mpCell : CellData α) : Except Failure (ErkPropulsionSrnModelVelocityAlignment α) := do
  let sys ← self.odeSystem
  let cell_area ← mpCell.GetItem "volume"
  let sys ← sys.SetParameter "Cell Area" cell_area
  pure { self with mpOdeSystem := some sys }

/-- Method `UpdateSrnVelocityAngles()` (lines 104-112). -/
def UpdateSrnVelocityAngles (self : ErkPropulsionSrnModelVelocityAlignment α)
    (mpCell : CellData α) : Except Failure (ErkPropulsionSrnModelVelocityAlignment α) := do
  let sys ← self.odeSystem
  let theta_vi ← mpCell.GetItem "theta_vi"
  let sys ← sys.SetParameter "theta_vi" theta_vi
  pure { self with mpOdeSystem := some sys }

/-- Method `SetSrnParams()` (lines 115-146). -/
def SetSrnParams (self : ErkPropulsionSrnModelVelocityAlignment α)
    (mpCell : CellData α) : Except Failure (ErkPropulsionSrnModelVelocityAlignment α) := do
  let sys ← self.odeSystem
  let taul ← mpCell.GetItem "taul"
  let sys ← sys.SetParameter "taul" taul
  let alpha ← mpCell.GetItem "alpha"
  let sys ← sys.SetParameter "alpha" alpha
  let beta ← mpCell.GetItem "beta"
  let sys ← sys.SetParameter "beta" beta
  let eta_std ← mpCell.GetItem "Eta Std"
  let sys ← sys.SetParameter "Eta Std" eta_std
  let dt_ode ← mpCell.GetItem "dt_ode"
  let sys ← sys.SetParameter "dt_ode" dt_ode
  let K ← mpCell.GetItem "K"
  let sys ← sys.SetParameter "K" K
  pure { self with mpOdeSystem := some sys }

/-- Modelled from the spec: `AbstractOdeSrnModel::Initialise(pOdeSystem)` is not under
`src/` (section 4.4, "allocate default CellState"): takes the ODE system and sets its
state vector to the system's default initial conditions. -/
def AbstractOdeSrnModel_Initialise (self : ErkPropulsionSrnModelVelocityAlignment α)
    (pOdeSystem : ErkPropulsionOdeSystemVelocityAlignment α) :
    Except Failure (ErkPropulsionSrnModelVelocityAlignment α) := do
  let sys ← pOdeSystem.SetStateVariables (pOdeSystem.mpSystemInfo.mInitialConditions.map fin)
  pure { self with mpOdeSystem := some sys }

/-- Method `Initialise()` (lines 87-91). -/
def Initialise (self : ErkPropulsionSrnModelVelocityAlignment α) (mpCell : CellData α) :
    Except Failure (ErkPropulsionSrnModelVelocityAlignment α) := do
  let pOdeSystem ← ErkPropulsionOdeSystemVelocityAlignment.new []
  let self ← AbstractOdeSrnModel_Initialise self pOdeSystem
  SetSrnParams self mpCell

/-- Modelled from the spec: `AbstractOdeSrnModel::SimulateToCurrentTime()` is not under
`src/` (section 4.4): "integrate from last-recorded time to targetTime, record new state
and time", and "a call with targetTime ≤ last-recorded time is a no-op". -/
def AbstractOdeSrnModel_SimulateToCurrentTime (libm : Libm α)
    (self : ErkPropulsionSrnModelVelocityAlignment α) (currentTime : α)
    (rng : RandomNumberGenerator α) :
    Except Failure (ErkPropulsionSrnModelVelocityAlignment α × RandomNumberGenerator α) := do
  let sys ← self.odeSystem
  if currentTime ≤ self.mLastTime then pure (self, rng)
  else
    let (state, rng) ← Advance libm sys.mStateVariables sys.mParameters self.mLastTime
      currentTime self.mDt rng
    pure ({ self with mpOdeSystem := some { sys with mStateVariables := state },
                      mLastTime := currentTime }, rng)

/-- Method `SimulateToCurrentTime()` (lines 77-85); `currentTime` is the time of the
`SimulationTime` singleton. -/
def SimulateToCurrentTime (libm : Libm α) (self : ErkPropulsionSrnModelVelocityAlignment α)
    (mpCell : CellData α) (currentTime : α) (rng : RandomNumberGenerator α) :
    Except Failure (ErkPropulsionSrnModelVelocityAlignment α × RandomNumberGenerator α) := do
  let self ← UpdateSrnAreas self mpCell
  let self ← UpdateSrnVelocityAngles self mpCell
  AbstractOdeSrnModel_SimulateToCurrentTime libm self currentTime rng

/-- Method `GetTheta()` (lines 148-153). -/
def GetTheta (self : ErkPropulsionSrnModelVelocityAlignment α) : Except Failure (Dbl α) := do
  let sys ← self.odeSystem
  let theta ← vecAt sys.mStateVariables 0
  pure theta

/-- Method `GetErk()` (lines 155-160). -/
def GetErk (self : ErkPropulsionSrnModelVelocityAlignment α) : Except Failure (Dbl α) := do
  let sys ← self.odeSystem
  let erk ← vecAt sys.mStateVariables 1
  pure erk

/-- Method `GetTargetArea()` (lines 162-167). -/
def GetTargetArea (self : ErkPropulsionSrnModelVelocityAlignment α) :
    Except Failure (Dbl α) := do
  let sys ← self.odeSystem
  let target_area ← vecAt sys.mStateVariables 2
  pure target_area

/-- Method `GetCellArea()` (lines 169-174). -/
def GetCellArea (self : ErkPropulsionSrnModelVelocityAlignment α) : Except Failure α := do
  let sys ← self.odeSystem
  let cell_area ← sys.GetParameter "Cell Area"
  pure cell_area

/-- Method `GetCellVelocityAngle()` (lines 176-181). -/
def GetCellVelocityAngle (self : ErkPropulsionSrnModelVelocityAlignment α) :
    Except Failure α := do
  let sys ← self.odeSystem
  let cell_area ← sys.GetParameter "Theta_vi"
  pure cell_area

/-- State Ready of the driver: it owns an ODE system with the parameter names of
`CellwiseOdeSystemInformation::Initialise`, eight parameters and three state
variables. -/
def IsReady (self : ErkPropulsionSrnModelVelocityAlignment α) : Bool :=
  match self.mpOdeSystem with
  | none => false
  | some sys =>
    sys.mpSystemInfo.mParameterNames ==
        (CellwiseOdeSystemInformation.Initialise : OdeSystemInformation α).mParameterNames
      && sys.mParameters.length == 8 && sys.mStateVariables.length == 3

end ErkPropulsionSrnModelVelocityAlignment

end Driver

/-! ## Arithmetic of `Dbl` -/

section DblLemmas

variable {α : Type} [LinearOrderedField α]

@[simp] theorem Dbl.fin_add_fin (x y : α) : (fin x + fin y : Dbl α) = fin (x + y) := rfl

@[simp] theorem Dbl.fin_sub_fin (x y : α) : (fin x - fin y : Dbl α) = fin (x - y) := rfl

@[simp] theorem Dbl.fin_mul_fin (x y : α) : (fin x * fin y : Dbl α) = fin (x * y) := rfl

@[simp] theorem Dbl.neg_fin (x : α) : (-fin x : Dbl α) = fin (-x) := rfl

@[simp] theorem Dbl.pow_fin (x : α) (n : Nat) : Dbl.pow (fin x) n = fin (x ^ n) := rfl

@[simp] theorem Dbl.nonfinite_add (x : Dbl α) : nonfinite + x = nonfinite := by
  cases x <;> rfl

@[simp] theorem Dbl.add_nonfinite (x : Dbl α) : x + nonfinite = nonfinite := by
  cases x <;> rfl

@[simp] theorem Dbl.nonfinite_mul (x : Dbl α) : nonfinite * x = nonfinite := by
  cases x <;> rfl

@[simp] theorem Dbl.mul_nonfinite (x : Dbl α) : x * nonfinite = nonfinite := by
  cases x <;> rfl

@[simp] theorem Dbl.nonfinite_sub (x : Dbl α) : nonfinite - x = nonfinite := by
  cases x <;> rfl

@[simp] theorem Dbl.sub_nonfinite (x : Dbl α) : x - nonfinite = nonfinite := by
  cases x <;> rfl

@[simp] theorem Dbl.sin_fin (libm : Libm α) (x : α) :
    Dbl.sin libm (fin x) = fin (libm.sin x) := rfl

theorem Dbl.sqrt_fin_of_nonneg (libm : Libm α) {x : α} (hx : 0 ≤ x) :
    Dbl.sqrt libm (fin x) = fin (libm.sqrt x) := by
  simp [Dbl.sqrt, not_lt.mpr hx]

theorem Dbl.sqrt_fin_of_neg (libm : Libm α) {x : α} (hx : x < 0) :
    Dbl.sqrt libm (fin x) = nonfinite := by
  simp [Dbl.sqrt, hx]

@[simp] theorem Dbl.sqrt_nonfinite (libm : Libm α) :
    Dbl.sqrt libm (nonfinite : Dbl α) = nonfinite := rfl

theorem Dbl.divBy_fin_of_ne (x : α) {y : α} (hy : y ≠ 0) :
    Dbl.divBy (fin x) y = fin (x / y) := by
  simp [Dbl.divBy, hy]

@[simp] theorem Dbl.divBy_zero (x : Dbl α) : Dbl.divBy x (0 : α) = nonfinite := by
  cases x <;> simp [Dbl.divBy]

/-- The noise factor `sqrt(1/dt_ode)` of the source: finite exactly for a positive
`dt_ode`. -/
theorem Dbl.sqrt_one_divBy (libm : Libm α) (dt_ode : α) :
    Dbl.sqrt libm (Dbl.divBy (fin 1) dt_ode) =
      if 0 < dt_ode then fin (libm.sqrt (1 / dt_ode)) else nonfinite := by
  rcases lt_trichotomy dt_ode 0 with h | h | h
  · have h1 : 1 / dt_ode < 0 := one_div_neg.mpr h
    rw [Dbl.divBy_fin_of_ne 1 h.ne, Dbl.sqrt_fin_of_neg libm h1, if_neg (not_lt.mpr h.le)]
  · subst h
    simp
  · have h1 : 0 ≤ 1 / dt_ode := (one_div_pos.mpr h).le
    rw [Dbl.divBy_fin_of_ne 1 h.ne', Dbl.sqrt_fin_of_nonneg libm h1, if_pos h]

/-- The body of `EvaluateYDerivatives` on a state of three and a parameter vector of
eight entries. -/
theorem EvaluateYDerivatives_eq (libm : Libm α)
    (area taul a b eta_std dt_ode theta_vi K time deviate : α)
    (theta erk target_area : Dbl α) :
    EvaluateYDerivatives libm [area, taul, a, b, eta_std, dt_ode, theta_vi, K] time
      [theta, erk, target_area] deviate =
    .ok [fin eta_std * Dbl.sqrt libm (fin 2) * Dbl.sqrt libm (Dbl.divBy (fin 1) dt_ode)
          * fin deviate + fin K * Dbl.sin libm (fin theta_vi - theta),
        -erk - Dbl.pow erk 3 + fin b * (fin area - fin 1),
        Dbl.divBy ((fin 1 - target_area) - fin a * erk) taul] := rfl

end DblLemmas

/-! ## The vector field -/

section VectorField

variable {α : Type} [LinearOrderedField α]

/-- C1. For every state `[theta, signal, targetArea]`, every parameter vector with
`tau ≠ 0` and every noise sample, `EvaluateYDerivatives` returns a vector whose second
and third entries are `-signal - signal^3 + beta*(cellArea - 1)` and
`((1 - targetArea) - alpha*signal) / tau`, with `cellArea, tau, alpha, beta` in parameter
slots 0 to 3; the two entries are the same for every other `theta`, noise sample and
time. -/
theorem EvaluateYDerivatives_signal_targetArea (libm : Libm α)
    (cellArea tau alpha beta etaStd dtOde thetaVi K theta signal targetArea time deviate : α)
    (htau : tau ≠ 0) :
    (∃ dTheta, EvaluateYDerivatives libm [cellArea, tau, alpha, beta, etaStd, dtOde, thetaVi, K]
        time [fin theta, fin signal, fin targetArea] deviate =
      .ok [dTheta, fin (-signal - signal ^ 3 + beta * (cellArea - 1)),
        fin (((1 - targetArea) - alpha * signal) / tau)]) ∧
    ∀ theta2 time2 deviate2 : α,
      (EvaluateYDerivatives libm [cellArea, tau, alpha, beta, etaStd, dtOde, thetaVi, K]
        time2 [fin theta2, fin signal, fin targetArea] deviate2).map (List.drop 1) =
      (EvaluateYDerivatives libm [cellArea, tau, alpha, beta, etaStd, dtOde, thetaVi, K]
        time [fin theta, fin signal, fin targetArea] deviate).map (List.drop 1) := by
  constructor
  · rw [EvaluateYDerivatives_eq]
    refine ⟨fin etaStd * Dbl.sqrt libm (fin 2) * Dbl.sqrt libm (Dbl.divBy (fin 1) dtOde)
      * fin deviate + fin K * Dbl.sin libm (fin thetaVi - fin theta), ?_⟩
    simp [Dbl.divBy_fin_of_ne _ htau]
  · intro theta2 time2 deviate2
    rw [EvaluateYDerivatives_eq, EvaluateYDerivatives_eq]
    rfl

/-- A concrete instance of C1: relaxation time 2, signal 1, at the default parameters
otherwise. -/
theorem EvaluateYDerivatives_signal_targetArea_witness :
    ∃ dTheta, EvaluateYDerivatives (Libm.mk Real.sqrt Real.sin)
        [1, 2, 1, 1, 0.1, 0.01, 0, 0] 0 [fin 0, fin 1, fin 0] 0 =
      .ok [dTheta, fin (-2), fin 0] := by
  obtain ⟨dTheta, h⟩ := (EvaluateYDerivatives_signal_targetArea (Libm.mk Real.sqrt Real.sin)
    1 2 1 1 0.1 0.01 0 0 0 1 0 0 0 (by norm_num)).1
  refine ⟨dTheta, ?_⟩
  rw [h]
  norm_num

/-- C2. For every state, every parameter vector with `dtOde > 0` and every noise sample
`n`, the first entry returned by `EvaluateYDerivatives` is the real number
`etaStd * sqrt(2/dtOde) * n + K * sin(thetaVi - theta)`, with `etaStd, dtOde, thetaVi, K`
in parameter slots 4 to 7 and `theta` in state slot 0. -/
theorem EvaluateYDerivatives_theta
    (cellArea tau alpha beta etaStd dtOde thetaVi K theta signal targetArea time n : ℝ)
    (hdt : 0 < dtOde) :
    ∃ dSignal dTargetArea, EvaluateYDerivatives (Libm.mk Real.sqrt Real.sin)
        [cellArea, tau, alpha, beta, etaStd, dtOde, thetaVi, K] time
        [fin theta, fin signal, fin targetArea] n =
      .ok [fin (etaStd * Real.sqrt (2 / dtOde) * n + K * Real.sin (thetaVi - theta)),
        dSignal, dTargetArea] := by
  rw [EvaluateYDerivatives_eq]
  refine ⟨-fin signal - Dbl.pow (fin signal) 3 + fin beta * (fin cellArea - fin 1),
    Dbl.divBy ((fin 1 - fin targetArea) - fin alpha * fin signal) tau, ?_⟩
  have h2 : Real.sqrt (2 / dtOde) = Real.sqrt 2 * Real.sqrt (1 / dtOde) := by
    rw [← Real.sqrt_mul (by norm_num)]
    congr 1
    ring
  rw [Dbl.sqrt_one_divBy, if_pos hdt, Dbl.sqrt_fin_of_nonneg _ (by norm_num : (0 : ℝ) ≤ 2), h2]
  simp only [Dbl.fin_mul_fin, Dbl.fin_sub_fin, Dbl.sin_fin, Dbl.fin_add_fin]
  rw [mul_assoc etaStd]

/-- A concrete instance of C2: step 2, noise sample 1, unit noise strength. -/
theorem EvaluateYDerivatives_theta_witness :
    ∃ dSignal dTargetArea, EvaluateYDerivatives (Libm.mk Real.sqrt Real.sin)
        [1, 1, 1, 1, 1, 2, 0, 0] 0 [fin 0, fin 0, fin 0] 1 =
      .ok [fin 1, dSignal, dTargetArea] := by
  obtain ⟨dSignal, dTargetArea, h⟩ :=
    EvaluateYDerivatives_theta 1 1 1 1 1 2 0 0 0 0 0 0 1 (by norm_num)
  refine ⟨dSignal, dTargetArea, ?_⟩
  rw [h]
  norm_num

/-- C8, as stated, fails: with relaxation time `tau = 0` (first call) or ODE step
`dtOde = 0` (second call) `EvaluateYDerivatives` raises no error; it returns a derivative
vector, whose target-area entry, respectively theta entry, is infinite or undefined. -/
theorem EvaluateYDerivatives_zero_tau_zero_step :
    EvaluateYDerivatives (Libm.mk Real.sqrt Real.sin) [1, 0, 1, 1, 0.1, 0.01, 0, 0] 0
        [fin 0, fin 1, fin 0] 0 = .ok [fin 0, fin (-2), nonfinite] ∧
    EvaluateYDerivatives (Libm.mk Real.sqrt Real.sin) [1, 1, 1, 1, 0.1, 0, 0, 0] 0
        [fin 0, fin 1, fin 0] 0 = .ok [nonfinite, fin (-2), fin 0] := by
  constructor
  · rw [EvaluateYDerivatives_eq, Dbl.sqrt_one_divBy,
      Dbl.sqrt_fin_of_nonneg _ (by norm_num : (0 : ℝ) ≤ 2),
      if_pos (by norm_num : (0 : ℝ) < 0.01)]
    simp only [Dbl.fin_mul_fin, Dbl.fin_sub_fin, Dbl.sin_fin, Dbl.fin_add_fin, Dbl.neg_fin,
      Dbl.pow_fin, Dbl.divBy_zero]
    norm_num
  · rw [EvaluateYDerivatives_eq, Dbl.sqrt_one_divBy, if_neg (lt_irrefl (0 : ℝ))]
    simp only [Dbl.fin_mul_fin, Dbl.fin_sub_fin, Dbl.fin_add_fin, Dbl.neg_fin,
      Dbl.pow_fin, Dbl.mul_nonfinite, Dbl.nonfinite_mul, Dbl.nonfinite_add]
    rw [Dbl.divBy_fin_of_ne _ (one_ne_zero : (1 : ℝ) ≠ 0)]
    norm_num

/-- C8, amended. `EvaluateYDerivatives` has no domain check: for every input whose
relaxation time `tau` (slot 1) is 0, and for every input whose ODE step `dtOde` (slot 5)
is 0, whatever the state and the other parameters are, it raises no error and returns a
derivative vector; the target-area entry of that vector is infinite or undefined when
`tau = 0`, and its theta entry is infinite or undefined when `dtOde = 0`. -/
theorem EvaluateYDerivatives_returns (libm : Libm α)
    (cellArea tau alpha beta etaStd dtOde thetaVi K time deviate : α)
    (theta signal targetArea : Dbl α) :
    (∃ dTheta dSignal,
      EvaluateYDerivatives libm [cellArea, 0, alpha, beta, etaStd, dtOde, thetaVi, K]
        time [theta, signal, targetArea] deviate = .ok [dTheta, dSignal, nonfinite]) ∧
    (∃ dSignal dTargetArea,
      EvaluateYDerivatives libm [cellArea, tau, alpha, beta, etaStd, 0, thetaVi, K]
        time [theta, signal, targetArea] deviate = .ok [nonfinite, dSignal, dTargetArea]) := by
  constructor
  · rw [EvaluateYDerivatives_eq, Dbl.divBy_zero]
    exact ⟨_, _, rfl⟩
  · have hzero : fin etaStd * Dbl.sqrt libm (fin 2) * Dbl.sqrt libm (Dbl.divBy (fin 1) (0 : α))
        * fin deviate + fin K * Dbl.sin libm (fin thetaVi - theta) = nonfinite := by
      rw [Dbl.divBy_zero, Dbl.sqrt_nonfinite, Dbl.mul_nonfinite, Dbl.nonfinite_mul,
        Dbl.nonfinite_add]
    rw [EvaluateYDerivatives_eq, hzero]
    exact ⟨_, _, rfl⟩

end VectorField

/-! ## The ODE system object -/

section SystemLemmas

variable {α : Type} [LinearOrderedField α]

theorem Except.bind_ok {ε β γ : Type} (x : β) (f : β → Except ε γ) :
    (Except.ok x >>= f) = f x := rfl

theorem Except.bind_error {ε β γ : Type} (e : ε) (f : β → Except ε γ) :
    ((Except.error e : Except ε β) >>= f) = Except.error e := rfl

theorem List.eq_of_length_eight {β : Type} {l : List β} (h : l.length = 8) :
    ∃ a b c d e f g k, l = [a, b, c, d, e, f, g, k] := by
  match l, h with
  | [a, b, c, d, e, f, g, k], _ => exact ⟨a, b, c, d, e, f, g, k, rfl⟩

/-- The name table the constructor of the ODE system leaves: that of `Initialise`, with
the default initial condition of state variable 1 overwritten. -/
theorem ErkPropulsionOdeSystemVelocityAlignment.new_of_length (v : List (Dbl α))
    (hv : v.length = 3) :
    ErkPropulsionOdeSystemVelocityAlignment.new v =
      .ok { mNumberOfStateVariables := 3
            mpSystemInfo :=
              { (CellwiseOdeSystemInformation.Initialise : OdeSystemInformation α) with
                mInitialConditions := [0, 1.0, 0] }
            mStateVariables := v
            mParameters := [1.0, 1.0, 1.0, 1.0, 0.1, 0.01, 0.0, 0.0] } := by
  have hne : v ≠ [] := by
    rintro rfl
    simp at hv
  simp [ErkPropulsionOdeSystemVelocityAlignment.new,
    OdeSystemInformation.SetDefaultInitialCondition, vecSet,
    CellwiseOdeSystemInformation.Initialise,
    ErkPropulsionOdeSystemVelocityAlignment.SetStateVariables, hne, hv, bind, Except.bind,
    pure, Except.pure]

theorem ErkPropulsionOdeSystemVelocityAlignment.new_nil :
    ErkPropulsionOdeSystemVelocityAlignment.new ([] : List (Dbl α)) =
      .ok { mNumberOfStateVariables := 3
            mpSystemInfo :=
              { (CellwiseOdeSystemInformation.Initialise : OdeSystemInformation α) with
                mInitialConditions := [0, 1.0, 0] }
            mStateVariables := []
            mParameters := [1.0, 1.0, 1.0, 1.0, 0.1, 0.01, 0.0, 0.0] } := by
  simp [ErkPropulsionOdeSystemVelocityAlignment.new,
    OdeSystemInformation.SetDefaultInitialCondition, vecSet,
    CellwiseOdeSystemInformation.Initialise, bind, Except.bind, pure, Except.pure]

theorem ErkPropulsionOdeSystemVelocityAlignment.SetParameter_of_index
    (sys : ErkPropulsionOdeSystemVelocityAlignment α) (rName : String) (index : Nat)
    (value : α)
    (hname : findParameterName rName sys.mpSystemInfo.mParameterNames 0 = some index)
    (hindex : index < sys.mParameters.length) :
    sys.SetParameter rName value =
      .ok { sys with mParameters := sys.mParameters.set index value } := by
  simp [ErkPropulsionOdeSystemVelocityAlignment.SetParameter,
    OdeSystemInformation.GetParameterIndex, hname, vecSet, hindex, bind, Except.bind,
    pure, Except.pure]

theorem ErkPropulsionOdeSystemVelocityAlignment.GetParameter_of_index
    (sys : ErkPropulsionOdeSystemVelocityAlignment α) (rName : String) (index : Nat)
    (hname : findParameterName rName sys.mpSystemInfo.mParameterNames 0 = some index) :
    sys.GetParameter rName = vecAt sys.mParameters index := by
  simp [ErkPropulsionOdeSystemVelocityAlignment.GetParameter,
    OdeSystemInformation.GetParameterIndex, hname, bind, Except.bind]

theorem ErkPropulsionOdeSystemVelocityAlignment.GetParameter_of_unknown
    (sys : ErkPropulsionOdeSystemVelocityAlignment α) (rName : String)
    (hname : findParameterName rName sys.mpSystemInfo.mParameterNames 0 = none) :
    sys.GetParameter rName = .error (.UnknownParameterName rName) := by
  simp [ErkPropulsionOdeSystemVelocityAlignment.GetParameter,
    OdeSystemInformation.GetParameterIndex, hname, bind, Except.bind]

/-- C10. For every ODE system whose state vector `v` has three entries, restoring with
`load_construct_data` what `save_construct_data` archived gives a system whose state
vector is `v`, entry for entry, and whose parameter vector holds the eight construction
defaults. -/
theorem load_construct_data_save_construct_data
    (t : ErkPropulsionOdeSystemVelocityAlignment α) (hv : t.mStateVariables.length = 3) :
    ∃ restored, ErkPropulsionOdeSystemVelocityAlignment.load_construct_data
        (ErkPropulsionOdeSystemVelocityAlignment.save_construct_data [] t) =
        .ok (restored, []) ∧
      restored.mStateVariables = t.mStateVariables ∧
      restored.mParameters = [1.0, 1.0, 1.0, 1.0, 0.1, 0.01, 0.0, 0.0] := by
  simp [ErkPropulsionOdeSystemVelocityAlignment.load_construct_data,
    ErkPropulsionOdeSystemVelocityAlignment.save_construct_data,
    ErkPropulsionOdeSystemVelocityAlignment.new_of_length _ hv, bind, Except.bind, pure,
    Except.pure]

/-- A concrete instance of C10: a system holding the state `[2, 3, 5]` and parameters
other than the defaults. -/
theorem load_construct_data_save_construct_data_witness :
    ∃ restored, ErkPropulsionOdeSystemVelocityAlignment.load_construct_data
        (ErkPropulsionOdeSystemVelocityAlignment.save_construct_data []
          { mNumberOfStateVariables := 3
            mpSystemInfo := (CellwiseOdeSystemInformation.Initialise : OdeSystemInformation ℚ)
            mStateVariables := [fin 2, fin 3, fin 5]
            mParameters := [7, 7, 7, 7, 7, 7, 7, 7] }) = .ok (restored, []) ∧
      restored.mStateVariables = [fin 2, fin 3, fin 5] ∧
      restored.mParameters = [1.0, 1.0, 1.0, 1.0, 0.1, 0.01, 0.0, 0.0] :=
  load_construct_data_save_construct_data
    { mNumberOfStateVariables := 3
      mpSystemInfo := (CellwiseOdeSystemInformation.Initialise : OdeSystemInformation ℚ)
      mStateVariables := [fin 2, fin 3, fin 5]
      mParameters := [7, 7, 7, 7, 7, 7, 7, 7] } rfl

end SystemLemmas

/-! ## Construction and division of the driver -/

section DriverCopy

variable {α : Type} [LinearOrderedField α]

open ErkPropulsionSrnModelVelocityAlignment

theorem ErkPropulsionSrnModelVelocityAlignment.odeSystem_of_some
    (self : ErkPropulsionSrnModelVelocityAlignment α)
    (sys : ErkPropulsionOdeSystemVelocityAlignment α) (hsys : self.mpOdeSystem = some sys) :
    self.odeSystem = .ok sys := by
  simp [odeSystem, hsys]

/-- What `CreateSrnModel()` returns for a parent whose state vector has three entries. -/
theorem ErkPropulsionSrnModelVelocityAlignment.CreateSrnModel_of_length
    (self : ErkPropulsionSrnModelVelocityAlignment α)
    (sys : ErkPropulsionOdeSystemVelocityAlignment α) (hsys : self.mpOdeSystem = some sys)
    (hv : sys.mStateVariables.length = 3) :
    CreateSrnModel self =
      .ok (self,
        { mpOdeSolver := self.mpOdeSolver
          mpOdeSystem := some
            { mNumberOfStateVariables := 3
              mpSystemInfo :=
                { (CellwiseOdeSystemInformation.Initialise : OdeSystemInformation α) with
                  mInitialConditions := [0, 1.0, 0] }
              mStateVariables := sys.mStateVariables
              mParameters := [1.0, 1.0, 1.0, 1.0, 0.1, 0.01, 0.0, 0.0] }
          mLastTime := self.mLastTime
          mDt := self.mDt }) := by
  simp [CreateSrnModel, copy, odeSystem_of_some self sys hsys,
    ErkPropulsionOdeSystemVelocityAlignment.new_of_length _ hv, bind, Except.bind, pure,
    Except.pure]

/-- C5. Division copy fidelity: for every parent driver whose ODE system holds the
state vector `[t, s, a]`, `CreateSrnModel()` returns a driver with `GetTheta() = t`,
`GetErk() = s` and `GetTargetArea() = a`, and leaves the parent as it was. -/
theorem CreateSrnModel_state (self : ErkPropulsionSrnModelVelocityAlignment α)
    (sys : ErkPropulsionOdeSystemVelocityAlignment α) (t s a : Dbl α)
    (hsys : self.mpOdeSystem = some sys) (hv : sys.mStateVariables = [t, s, a]) :
    ∃ child, CreateSrnModel self = .ok (self, child) ∧
      GetTheta child = .ok t ∧ GetErk child = .ok s ∧ GetTargetArea child = .ok a := by
  refine ⟨_, CreateSrnModel_of_length self sys hsys (by simp [hv]), ?_, ?_, ?_⟩ <;>
    simp [GetTheta, GetErk, GetTargetArea, odeSystem, hv, vecAt, bind, Except.bind, pure,
      Except.pure]

/-- A concrete instance of C5: a parent with state `[2, 3, 5]`. -/
theorem CreateSrnModel_state_witness :
    ∃ child, CreateSrnModel
        ({ mpOdeSolver := CellCycleModelOdeSolver.Instance.Initialise
           mpOdeSystem := some
             { mNumberOfStateVariables := 3
               mpSystemInfo := CellwiseOdeSystemInformation.Initialise
               mStateVariables := [fin 2, fin 3, fin 5]
               mParameters := [7, 7, 7, 7, 7, 7, 7, 7] }
           mLastTime := 1
           mDt := 1 } : ErkPropulsionSrnModelVelocityAlignment ℚ) =
        .ok ({ mpOdeSolver := CellCycleModelOdeSolver.Instance.Initialise
               mpOdeSystem := some
                 { mNumberOfStateVariables := 3
                   mpSystemInfo := CellwiseOdeSystemInformation.Initialise
                   mStateVariables := [fin 2, fin 3, fin 5]
                   mParameters := [7, 7, 7, 7, 7, 7, 7, 7] }
               mLastTime := 1
               mDt := 1 }, child) ∧
      GetTheta child = .ok (fin 2) ∧ GetErk child = .ok (fin 3) ∧
      GetTargetArea child = .ok (fin 5) :=
  CreateSrnModel_state _ _ (fin 2) (fin 3) (fin 5) rfl rfl

/-- C6. `CreateSrnModel()` copies no parameter: whatever the eight parameters of the
parent are, the ODE system of the new driver holds the construction defaults, and
`GetCellArea()` on the new driver returns 1. -/
theorem CreateSrnModel_parameters (self : ErkPropulsionSrnModelVelocityAlignment α)
    (sys : ErkPropulsionOdeSystemVelocityAlignment α)
    (hsys : self.mpOdeSystem = some sys) (hv : sys.mStateVariables.length = 3) :
    ∃ child childSys, CreateSrnModel self = .ok (self, child) ∧
      child.mpOdeSystem = some childSys ∧
      childSys.mParameters = [1.0, 1.0, 1.0, 1.0, 0.1, 0.01, 0.0, 0.0] ∧
      GetCellArea child = .ok 1 := by
  refine ⟨_, _, CreateSrnModel_of_length self sys hsys hv, rfl, rfl, ?_⟩
  have hname : findParameterName "Cell Area"
      (CellwiseOdeSystemInformation.Initialise : OdeSystemInformation α).mParameterNames 0
        = some 0 := rfl
  simp only [GetCellArea, odeSystem, Except.bind_ok]
  rw [ErkPropulsionOdeSystemVelocityAlignment.GetParameter_of_index _ _ 0 hname]
  simp only [vecAt, List.get?_cons_zero, Except.bind_ok, pure, Except.pure]
  norm_num

/-- A concrete instance of C6: a parent whose parameters are all 7. -/
theorem CreateSrnModel_parameters_witness :
    ∃ child childSys, CreateSrnModel
        ({ mpOdeSolver := CellCycleModelOdeSolver.Instance.Initialise
           mpOdeSystem := some
             { mNumberOfStateVariables := 3
               mpSystemInfo := CellwiseOdeSystemInformation.Initialise
               mStateVariables := [fin 2, fin 3, fin 5]
               mParameters := [7, 7, 7, 7, 7, 7, 7, 7] }
           mLastTime := 1
           mDt := 1 } : ErkPropulsionSrnModelVelocityAlignment ℚ) =
        .ok ({ mpOdeSolver := CellCycleModelOdeSolver.Instance.Initialise
               mpOdeSystem := some
                 { mNumberOfStateVariables := 3
                   mpSystemInfo := CellwiseOdeSystemInformation.Initialise
                   mStateVariables := [fin 2, fin 3, fin 5]
                   mParameters := [7, 7, 7, 7, 7, 7, 7, 7] }
               mLastTime := 1
               mDt := 1 }, child) ∧
      child.mpOdeSystem = some childSys ∧
      childSys.mParameters = [1.0, 1.0, 1.0, 1.0, 0.1, 0.01, 0.0, 0.0] ∧
      GetCellArea child = .ok 1 :=
  CreateSrnModel_parameters _ _ rfl rfl

/-- C9, as stated, fails: a variable-step solver that is set up, supplied explicitly,
is accepted by the constructor and bound to the driver. -/
theorem new_accepts_variable_step :
    (ErkPropulsionSrnModelVelocityAlignment.new
        (some { kind := .VariableStep, mIsSetUp := true }) (0 : ℚ) 1) =
      .ok { mpOdeSolver := { kind := .VariableStep, mIsSetUp := true }
            mpOdeSystem := none
            mLastTime := 0
            mDt := 1 } := rfl

/-- C9, amended. The constructor looks only at whether the bound solver is set up, not
at its step policy: with a supplied solver it succeeds, binding that solver, exactly
when the solver is set up (a variable-step solver that is set up is accepted), and fails
with a configuration error otherwise; with no solver supplied it binds the fixed-step
Euler solver, initialised, and succeeds. -/
theorem new_succeeds_iff_set_up (currentTime dt : α) :
    (∀ solver : CellCycleModelOdeSolver,
      ErkPropulsionSrnModelVelocityAlignment.new (some solver) currentTime dt =
        if solver.IsSetUp then
          .ok { mpOdeSolver := solver, mpOdeSystem := none, mLastTime := currentTime,
                mDt := dt }
        else .error .ConfigurationError) ∧
    ErkPropulsionSrnModelVelocityAlignment.new none currentTime dt =
      .ok { mpOdeSolver := { kind := .Euler, mIsSetUp := true }, mpOdeSystem := none,
            mLastTime := currentTime, mDt := dt } :=
  ⟨fun _ => rfl, rfl⟩

end DriverCopy

/-! ## Marshalling and integration -/

section Marshalling

variable {α : Type} [LinearOrderedField α]

open ErkPropulsionSrnModelVelocityAlignment

theorem ErkPropulsionSrnModelVelocityAlignment.IsReady_iff
    (self : ErkPropulsionSrnModelVelocityAlignment α) :
    IsReady self = true ↔ ∃ sys, self.mpOdeSystem = some sys ∧
      sys.mpSystemInfo.mParameterNames =
        (CellwiseOdeSystemInformation.Initialise : OdeSystemInformation α).mParameterNames ∧
      sys.mParameters.length = 8 ∧ sys.mStateVariables.length = 3 := by
  unfold IsReady
  cases h : self.mpOdeSystem with
  | none => simp
  | some sys => simp [and_assoc]

theorem CellData.GetItem_of_some (mpCell : CellData α) (key : String) (value : α)
    (h : mpCell key = some value) : mpCell.GetItem key = .ok value := by
  simp [CellData.GetItem, h]

/-- Running `UpdateSrnAreas()` on a Ready driver writes the store's `"volume"` into slot 0. -/
theorem ErkPropulsionSrnModelVelocityAlignment.UpdateSrnAreas_of_ready
    (self : ErkPropulsionSrnModelVelocityAlignment α)
    (sys : ErkPropulsionOdeSystemVelocityAlignment α) (mpCell : CellData α) (area : α)
    (hsys : self.mpOdeSystem = some sys)
    (hnames : sys.mpSystemInfo.mParameterNames =
      (CellwiseOdeSystemInformation.Initialise : OdeSystemInformation α).mParameterNames)
    (hlen : sys.mParameters.length = 8) (harea : mpCell "volume" = some area) :
    UpdateSrnAreas self mpCell =
      .ok { self with
            mpOdeSystem := some { sys with mParameters := sys.mParameters.set 0 area } } := by
  have hname : findParameterName "Cell Area" sys.mpSystemInfo.mParameterNames 0 = some 0 := by
    rw [hnames]
    rfl
  simp only [UpdateSrnAreas, odeSystem_of_some self sys hsys,
    CellData.GetItem_of_some mpCell _ _ harea, Except.bind_ok,
    ErkPropulsionOdeSystemVelocityAlignment.SetParameter_of_index sys _ 0 area hname
      (by omega)]
  rfl

/-- Running `UpdateSrnVelocityAngles()` on a Ready driver writes the store's `"theta_vi"` into
slot 6. -/
theorem ErkPropulsionSrnModelVelocityAlignment.UpdateSrnVelocityAngles_of_ready
    (self : ErkPropulsionSrnModelVelocityAlignment α)
    (sys : ErkPropulsionOdeSystemVelocityAlignment α) (mpCell : CellData α) (angle : α)
    (hsys : self.mpOdeSystem = some sys)
    (hnames : sys.mpSystemInfo.mParameterNames =
      (CellwiseOdeSystemInformation.Initialise : OdeSystemInformation α).mParameterNames)
    (hlen : sys.mParameters.length = 8) (hangle : mpCell "theta_vi" = some angle) :
    UpdateSrnVelocityAngles self mpCell =
      .ok { self with
            mpOdeSystem := some { sys with mParameters := sys.mParameters.set 6 angle } } := by
  have hname : findParameterName "theta_vi" sys.mpSystemInfo.mParameterNames 0 = some 6 := by
    rw [hnames]
    rfl
  simp only [UpdateSrnVelocityAngles, odeSystem_of_some self sys hsys,
    CellData.GetItem_of_some mpCell _ _ hangle, Except.bind_ok,
    ErkPropulsionOdeSystemVelocityAlignment.SetParameter_of_index sys _ 6 angle hname
      (by omega)]
  rfl

/-- On a Ready driver `GetCellVelocityAngle()` always ends in an exception: the name
table has no parameter `"Theta_vi"`. -/
theorem ErkPropulsionSrnModelVelocityAlignment.GetCellVelocityAngle_of_ready
    (self : ErkPropulsionSrnModelVelocityAlignment α)
    (sys : ErkPropulsionOdeSystemVelocityAlignment α)
    (hsys : self.mpOdeSystem = some sys)
    (hnames : sys.mpSystemInfo.mParameterNames =
      (CellwiseOdeSystemInformation.Initialise : OdeSystemInformation α).mParameterNames) :
    GetCellVelocityAngle self = .error (.UnknownParameterName "Theta_vi") := by
  have hname : findParameterName "Theta_vi" sys.mpSystemInfo.mParameterNames 0 = none := by
    rw [hnames]
    rfl
  simp only [GetCellVelocityAngle, odeSystem_of_some self sys hsys, Except.bind_ok,
    ErkPropulsionOdeSystemVelocityAlignment.GetParameter_of_unknown sys _ hname]
  rfl

/-- What `Initialise()` leaves, for a store that holds the six keys `SetSrnParams()`
reads. -/
theorem ErkPropulsionSrnModelVelocityAlignment.Initialise_of_items
    (self : ErkPropulsionSrnModelVelocityAlignment α) (mpCell : CellData α)
    (taul alpha beta eta_std dt_ode K : α)
    (h1 : mpCell "taul" = some taul) (h2 : mpCell "alpha" = some alpha)
    (h3 : mpCell "beta" = some beta) (h4 : mpCell "Eta Std" = some eta_std)
    (h5 : mpCell "dt_ode" = some dt_ode) (h6 : mpCell "K" = some K) :
    Initialise self mpCell =
      .ok { self with
            mpOdeSystem := some
              { mNumberOfStateVariables := 3
                mpSystemInfo :=
                  { (CellwiseOdeSystemInformation.Initialise : OdeSystemInformation α) with
                    mInitialConditions := [0, 1.0, 0] }
                mStateVariables := [fin 0, fin 1.0, fin 0]
                mParameters := [1.0, taul, alpha, beta, eta_std, dt_ode, 0.0, K] } } := by
  simp only [Initialise, ErkPropulsionOdeSystemVelocityAlignment.new_nil, Except.bind_ok,
    AbstractOdeSrnModel_Initialise,
    ErkPropulsionOdeSystemVelocityAlignment.SetStateVariables, SetSrnParams, odeSystem,
    CellData.GetItem_of_some mpCell _ _ h1, CellData.GetItem_of_some mpCell _ _ h2,
    CellData.GetItem_of_some mpCell _ _ h3, CellData.GetItem_of_some mpCell _ _ h4,
    CellData.GetItem_of_some mpCell _ _ h5, CellData.GetItem_of_some mpCell _ _ h6]
  simp [ErkPropulsionOdeSystemVelocityAlignment.SetParameter,
    OdeSystemInformation.GetParameterIndex, findParameterName, vecSet,
    CellwiseOdeSystemInformation.Initialise, bind, Except.bind, pure, Except.pure]

end Marshalling

section Integration

variable {α : Type} [LinearOrderedField α] [FloorRing α]

open ErkPropulsionSrnModelVelocityAlignment

/-- The function `EvaluateYDerivatives` returns three derivatives on every state of three entries and
every vector of eight parameters. -/
theorem EvaluateYDerivatives_ok (libm : Libm α) (parameters : List α) (time : α)
    (state : List (Dbl α)) (deviate : α) (hp : parameters.length = 8)
    (hs : state.length = 3) :
    ∃ derivative, EvaluateYDerivatives libm parameters time state deviate = .ok derivative ∧
      derivative.length = 3 := by
  obtain ⟨a, b, c, d, e, f, g, k, rfl⟩ := List.eq_of_length_eight hp
  obtain ⟨x, y, z, rfl⟩ := List.length_eq_three.mp hs
  exact ⟨_, EvaluateYDerivatives_eq libm a b c d e f g k time deviate x y z, rfl⟩

theorem eulerSubStep_ok (libm : Libm α) (parameters : List α) (t stepDt : α)
    (state : List (Dbl α)) (rng : RandomNumberGenerator α) (hp : parameters.length = 8)
    (hs : state.length = 3) :
    ∃ next, eulerSubStep libm parameters t stepDt state rng =
        .ok (next, { rng with drawn := rng.drawn + 1 }) ∧ next.length = 3 := by
  obtain ⟨derivative, hd, hl⟩ :=
    EvaluateYDerivatives_ok libm parameters t state (rng.deviates rng.drawn) hp hs
  refine ⟨List.zipWith (fun y dy => y + dy * fin stepDt) state derivative, ?_, ?_⟩
  · simp [eulerSubStep, RandomNumberGenerator.StandardNormalRandomDeviate, hd, bind,
      Except.bind, pure, Except.pure]
  · simp [hs, hl]

theorem advanceSteps_ok (libm : Libm α) (parameters : List α) (toTime stepDt : α)
    (hp : parameters.length = 8) (steps : Nat) :
    ∀ (t : α) (state : List (Dbl α)) (rng : RandomNumberGenerator α), state.length = 3 →
      ∃ final, advanceSteps libm parameters toTime stepDt steps t state rng =
          .ok (final, { rng with drawn := rng.drawn + steps }) ∧ final.length = 3 := by
  induction steps with
  | zero =>
    intro t state rng hs
    exact ⟨state, rfl, hs⟩
  | succ n ih =>
    intro t state rng hs
    obtain ⟨next, hnext, hl⟩ :=
      eulerSubStep_ok libm parameters t (min stepDt (toTime - t)) state rng hp hs
    obtain ⟨final, hfinal, hfl⟩ :=
      ih (t + min stepDt (toTime - t)) next { rng with drawn := rng.drawn + 1 } hl
    refine ⟨final, ?_, hfl⟩
    simp only [advanceSteps, hnext, Except.bind_ok, hfinal]
    simp [Nat.add_assoc, Nat.add_comm 1 n]

/-- The fixed-step integration returns on every state of three entries, every vector of
eight parameters and every positive step. -/
theorem Advance_ok (libm : Libm α) (state : List (Dbl α)) (parameters : List α)
    (fromTime toTime stepDt : α) (rng : RandomNumberGenerator α)
    (hp : parameters.length = 8) (hs : state.length = 3) (hdt : 0 < stepDt) :
    ∃ final rng2, Advance libm state parameters fromTime toTime stepDt rng =
        .ok (final, rng2) ∧ final.length = 3 := by
  obtain ⟨final, h, hl⟩ := advanceSteps_ok libm parameters toTime stepDt hp
    ⌈(toTime - fromTime) / stepDt⌉₊ fromTime state rng hs
  refine ⟨final, { rng with drawn := rng.drawn + ⌈(toTime - fromTime) / stepDt⌉₊ }, ?_, hl⟩
  simp [Advance, not_le.mpr hdt, h]

/-- Running `SimulateToCurrentTime()` on a Ready driver is the base-class integration of the
driver whose slots 0 and 6 hold the store's `"volume"` and `"theta_vi"`. -/
theorem ErkPropulsionSrnModelVelocityAlignment.SimulateToCurrentTime_of_ready
    (libm : Libm α) (self : ErkPropulsionSrnModelVelocityAlignment α)
    (sys : ErkPropulsionOdeSystemVelocityAlignment α) (mpCell : CellData α)
    (area angle currentTime : α) (rng : RandomNumberGenerator α)
    (hsys : self.mpOdeSystem = some sys)
    (hnames : sys.mpSystemInfo.mParameterNames =
      (CellwiseOdeSystemInformation.Initialise : OdeSystemInformation α).mParameterNames)
    (hlen : sys.mParameters.length = 8) (harea : mpCell "volume" = some area)
    (hangle : mpCell "theta_vi" = some angle) :
    SimulateToCurrentTime libm self mpCell currentTime rng =
      AbstractOdeSrnModel_SimulateToCurrentTime libm
        { self with
          mpOdeSystem := some
            { sys with mParameters := (sys.mParameters.set 0 area).set 6 angle } }
        currentTime rng := by
  simp only [SimulateToCurrentTime,
    UpdateSrnAreas_of_ready self sys mpCell area hsys hnames hlen harea, Except.bind_ok]
  rw [UpdateSrnVelocityAngles_of_ready _ { sys with mParameters := sys.mParameters.set 0 area }
    mpCell angle rfl hnames (by simp [hlen]) hangle]
  rfl

/-- The integration of the base class when the current time is not after the last
recorded one: nothing changes. -/
theorem ErkPropulsionSrnModelVelocityAlignment.AbstractOdeSrnModel_SimulateToCurrentTime_of_le
    (libm : Libm α) (self : ErkPropulsionSrnModelVelocityAlignment α)
    (sys : ErkPropulsionOdeSystemVelocityAlignment α) (currentTime : α)
    (rng : RandomNumberGenerator α) (hsys : self.mpOdeSystem = some sys)
    (htime : currentTime ≤ self.mLastTime) :
    AbstractOdeSrnModel_SimulateToCurrentTime libm self currentTime rng = .ok (self, rng) := by
  simp [AbstractOdeSrnModel_SimulateToCurrentTime, odeSystem_of_some self sys hsys, htime,
    bind, Except.bind, pure, Except.pure]

/-- The integration of the base class returns on a driver with eight parameters, three
state variables and a positive step; it changes the state vector and the last recorded
time only, and the last recorded time is then not before the current time. -/
theorem ErkPropulsionSrnModelVelocityAlignment.AbstractOdeSrnModel_SimulateToCurrentTime_ok
    (libm : Libm α) (self : ErkPropulsionSrnModelVelocityAlignment α)
    (sys : ErkPropulsionOdeSystemVelocityAlignment α) (currentTime : α)
    (rng : RandomNumberGenerator α) (hsys : self.mpOdeSystem = some sys)
    (hlen : sys.mParameters.length = 8) (hstate : sys.mStateVariables.length = 3)
    (hdt : 0 < self.mDt) :
    ∃ state lastTime rng2,
      AbstractOdeSrnModel_SimulateToCurrentTime libm self currentTime rng =
        .ok ({ self with mpOdeSystem := some { sys with mStateVariables := state },
                         mLastTime := lastTime }, rng2) ∧
      state.length = 3 ∧ currentTime ≤ lastTime := by
  by_cases htime : currentTime ≤ self.mLastTime
  · refine ⟨sys.mStateVariables, self.mLastTime, rng, ?_, hstate, htime⟩
    rw [AbstractOdeSrnModel_SimulateToCurrentTime_of_le libm self sys currentTime rng hsys
      htime]
    cases self
    simp only at hsys
    subst hsys
    rfl
  · obtain ⟨final, rng2, h, hl⟩ := Advance_ok libm sys.mStateVariables sys.mParameters
      self.mLastTime currentTime self.mDt rng hlen hstate hdt
    refine ⟨final, currentTime, rng2, ?_, hl, le_refl _⟩
    simp [AbstractOdeSrnModel_SimulateToCurrentTime, odeSystem_of_some self sys hsys, htime,
      h, bind, Except.bind, pure, Except.pure]

theorem List.set_zero_set_six_idem {β : Type} (l : List β) (x y : β) :
    (((l.set 0 x).set 6 y).set 0 x).set 6 y = (l.set 0 x).set 6 y := by
  match l with
  | [] => rfl
  | [_] => rfl
  | [_, _] => rfl
  | [_, _, _] => rfl
  | [_, _, _, _] => rfl
  | [_, _, _, _, _] => rfl
  | [_, _, _, _, _, _] => rfl
  | _ :: _ :: _ :: _ :: _ :: _ :: _ :: _ => rfl

/-- A `SimulateToCurrentTime()` call that fails to find `"volume"` or `"theta_vi"` in
the store does not return; one that returns read both. -/
theorem ErkPropulsionSrnModelVelocityAlignment.items_of_SimulateToCurrentTime_ok
    (libm : Libm α) (self : ErkPropulsionSrnModelVelocityAlignment α)
    (sys : ErkPropulsionOdeSystemVelocityAlignment α) (mpCell : CellData α)
    (currentTime : α) (rng : RandomNumberGenerator α)
    (out : ErkPropulsionSrnModelVelocityAlignment α × RandomNumberGenerator α)
    (hsys : self.mpOdeSystem = some sys)
    (hnames : sys.mpSystemInfo.mParameterNames =
      (CellwiseOdeSystemInformation.Initialise : OdeSystemInformation α).mParameterNames)
    (hlen : sys.mParameters.length = 8)
    (h : SimulateToCurrentTime libm self mpCell currentTime rng = .ok out) :
    ∃ area angle, mpCell "volume" = some area ∧ mpCell "theta_vi" = some angle := by
  cases harea : mpCell "volume" with
  | none =>
    simp [SimulateToCurrentTime, UpdateSrnAreas, odeSystem_of_some self sys hsys,
      CellData.GetItem, harea, bind, Except.bind] at h
  | some area =>
    cases hangle : mpCell "theta_vi" with
    | none =>
      simp [SimulateToCurrentTime,
        UpdateSrnAreas_of_ready self sys mpCell area hsys hnames hlen harea,
        UpdateSrnVelocityAngles, odeSystem, CellData.GetItem, hangle, bind, Except.bind] at h
    | some angle => exact ⟨area, angle, rfl, rfl⟩

/-- What a returning integration of the base class leaves: only the state vector and
the last recorded time may differ, the last recorded time is not before the current
time, and nothing at all differs when the current time was not after the last recorded
one. -/
theorem ErkPropulsionSrnModelVelocityAlignment.AbstractOdeSrnModel_SimulateToCurrentTime_inv
    (libm : Libm α) (self : ErkPropulsionSrnModelVelocityAlignment α)
    (sys : ErkPropulsionOdeSystemVelocityAlignment α) (currentTime : α)
    (rng rng1 : RandomNumberGenerator α) (out : ErkPropulsionSrnModelVelocityAlignment α)
    (hsys : self.mpOdeSystem = some sys)
    (h : AbstractOdeSrnModel_SimulateToCurrentTime libm self currentTime rng = .ok (out, rng1)) :
    (∃ state lastTime,
      out = { self with mpOdeSystem := some { sys with mStateVariables := state },
                        mLastTime := lastTime } ∧ currentTime ≤ lastTime) ∧
    (currentTime ≤ self.mLastTime → out = self ∧ rng1 = rng) := by
  by_cases htime : currentTime ≤ self.mLastTime
  · rw [AbstractOdeSrnModel_SimulateToCurrentTime_of_le libm self sys currentTime rng hsys
      htime] at h
    obtain ⟨rfl, rfl⟩ := Prod.mk.inj (Except.ok.inj h)
    refine ⟨⟨sys.mStateVariables, self.mLastTime, ?_, htime⟩, fun _ => ⟨rfl, rfl⟩⟩
    cases self
    simp only at hsys
    subst hsys
    rfl
  · cases hadv : Advance libm sys.mStateVariables sys.mParameters self.mLastTime currentTime
        self.mDt rng with
    | error e =>
      simp [AbstractOdeSrnModel_SimulateToCurrentTime, odeSystem_of_some self sys hsys,
        htime, hadv, bind, Except.bind] at h
    | ok result =>
      obtain ⟨state, rng2⟩ := result
      simp [AbstractOdeSrnModel_SimulateToCurrentTime, odeSystem_of_some self sys hsys,
        htime, hadv, bind, Except.bind, pure, Except.pure] at h
      obtain ⟨rfl, rfl⟩ := h
      exact ⟨⟨state, currentTime, rfl, le_refl _⟩, fun hle => absurd hle htime⟩

/-- C7. No-op idempotence: on a Ready driver, a `SimulateToCurrentTime()` call made when
the current time is not after the last recorded time integrates nothing: whenever it
returns, the state vector and the last recorded time are as before the call and the
random generator has drawn nothing, and it does return when the store holds the two
keys it reads.  Consequently, for every current time, once a call has returned, a
second call at the same time returns the very driver and random generator the first
call left; and a first call returns whenever the store holds the two keys and the
solver step is positive. -/
theorem SimulateToCurrentTime_noop (libm : Libm α)
    (self : ErkPropulsionSrnModelVelocityAlignment α) (mpCell : CellData α)
    (currentTime : α) (rng : RandomNumberGenerator α) (hready : IsReady self = true) :
    (currentTime ≤ self.mLastTime →
      (∀ out rng1, SimulateToCurrentTime libm self mpCell currentTime rng = .ok (out, rng1) →
        out.mpOdeSystem.map (fun sys => sys.mStateVariables) =
          self.mpOdeSystem.map (fun sys => sys.mStateVariables) ∧
        out.mLastTime = self.mLastTime ∧ rng1 = rng) ∧
      ((mpCell "volume").isSome = true → (mpCell "theta_vi").isSome = true →
        ∃ out, SimulateToCurrentTime libm self mpCell currentTime rng = .ok (out, rng))) ∧
    (∀ once rng1, SimulateToCurrentTime libm self mpCell currentTime rng = .ok (once, rng1) →
      SimulateToCurrentTime libm once mpCell currentTime rng1 = .ok (once, rng1)) ∧
    ((mpCell "volume").isSome = true → (mpCell "theta_vi").isSome = true → 0 < self.mDt →
      ∃ once rng1, SimulateToCurrentTime libm self mpCell currentTime rng = .ok (once, rng1)) := by
  obtain ⟨sys, hsys, hnames, hlen, hstate⟩ := (IsReady_iff self).mp hready
  refine ⟨fun htime => ⟨?_, ?_⟩, ?_, ?_⟩
  · intro out rng1 h
    obtain ⟨area, angle, harea, hangle⟩ := items_of_SimulateToCurrentTime_ok libm self sys
      mpCell currentTime rng _ hsys hnames hlen h
    rw [SimulateToCurrentTime_of_ready libm self sys mpCell area angle currentTime rng hsys
      hnames hlen harea hangle] at h
    obtain ⟨rfl, rfl⟩ := (AbstractOdeSrnModel_SimulateToCurrentTime_inv libm _ _ currentTime
      rng rng1 out rfl h).2 htime
    simp [hsys]
  · intro harea hangle
    obtain ⟨area, harea⟩ := Option.isSome_iff_exists.mp harea
    obtain ⟨angle, hangle⟩ := Option.isSome_iff_exists.mp hangle
    rw [SimulateToCurrentTime_of_ready libm self sys mpCell area angle currentTime rng hsys
      hnames hlen harea hangle]
    exact ⟨_, AbstractOdeSrnModel_SimulateToCurrentTime_of_le libm _ _ currentTime rng rfl
      htime⟩
  · intro once rng1 h
    obtain ⟨area, angle, harea, hangle⟩ := items_of_SimulateToCurrentTime_ok libm self sys
      mpCell currentTime rng _ hsys hnames hlen h
    rw [SimulateToCurrentTime_of_ready libm self sys mpCell area angle currentTime rng hsys
      hnames hlen harea hangle] at h
    obtain ⟨⟨state, lastTime, rfl, hle⟩, -⟩ := AbstractOdeSrnModel_SimulateToCurrentTime_inv
      libm _ _ currentTime rng rng1 once rfl h
    rw [SimulateToCurrentTime_of_ready libm _
      { sys with mParameters := (sys.mParameters.set 0 area).set 6 angle,
                 mStateVariables := state }
      mpCell area angle currentTime rng1 rfl hnames (by simp [hlen]) harea hangle]
    simp only [List.set_zero_set_six_idem]
    exact AbstractOdeSrnModel_SimulateToCurrentTime_of_le libm _ _ currentTime rng1 rfl hle
  · intro harea hangle hdt
    obtain ⟨area, harea⟩ := Option.isSome_iff_exists.mp harea
    obtain ⟨angle, hangle⟩ := Option.isSome_iff_exists.mp hangle
    rw [SimulateToCurrentTime_of_ready libm self sys mpCell area angle currentTime rng hsys
      hnames hlen harea hangle]
    obtain ⟨state, lastTime, rng1, h, -, -⟩ :=
      AbstractOdeSrnModel_SimulateToCurrentTime_ok libm
        { self with
          mpOdeSystem := some
            { sys with mParameters := (sys.mParameters.set 0 area).set 6 angle } }
        { sys with mParameters := (sys.mParameters.set 0 area).set 6 angle }
        currentTime rng rfl (by simp [hlen]) hstate hdt
    exact ⟨_, rng1, h⟩

/-- A concrete instance of C7: a driver whose last recorded time is 0, simulated to
time 0 on a store with area 2 and velocity angle 3: the call returns, without drawing a
deviate, a driver with the state vector `[0, 1, 0]` and last recorded time 0. -/
theorem SimulateToCurrentTime_noop_witness :
    ∃ out,
      SimulateToCurrentTime (Libm.mk Real.sqrt Real.sin)
        { mpOdeSolver := CellCycleModelOdeSolver.Instance.Initialise
          mpOdeSystem := some
            { mNumberOfStateVariables := 3
              mpSystemInfo := CellwiseOdeSystemInformation.Initialise
              mStateVariables := [fin 0, fin 1, fin 0]
              mParameters := [1, 1, 1, 1, 0, 1, 0, 0] }
          mLastTime := 0
          mDt := 1 }
        (fun key => if key = "volume" then some 2 else if key = "theta_vi" then some 3
          else none) 0 { deviates := fun _ => 0, drawn := 0 } =
        .ok (out, { deviates := fun _ => 0, drawn := 0 }) ∧
      out.mpOdeSystem.map (fun sys => sys.mStateVariables) = some [fin 0, fin 1, fin 0] ∧
      out.mLastTime = 0 := by
  have h := (SimulateToCurrentTime_noop (Libm.mk Real.sqrt Real.sin)
    { mpOdeSolver := CellCycleModelOdeSolver.Instance.Initialise
      mpOdeSystem := some
        { mNumberOfStateVariables := 3
          mpSystemInfo := CellwiseOdeSystemInformation.Initialise
          mStateVariables := [fin 0, fin 1, fin 0]
          mParameters := [1, 1, 1, 1, 0, 1, 0, 0] }
      mLastTime := 0
      mDt := 1 }
    (fun key => if key = "volume" then some 2 else if key = "theta_vi" then some 3
      else none) 0 { deviates := fun _ => 0, drawn := 0 } (by simp [IsReady])).1 (le_refl _)
  obtain ⟨out, hout⟩ := h.2 (by simp) (by simp)
  obtain ⟨hstate, htime, -⟩ := h.1 out _ hout
  exact ⟨out, hout, hstate, htime⟩

/-- The parameter vector a `SimulateToCurrentTime()` call integrates with and leaves:
the prior one with slots 0 and 6 overwritten from the store. -/
theorem ErkPropulsionSrnModelVelocityAlignment.SimulateToCurrentTime_refreshes_two
    (libm : Libm α) (self : ErkPropulsionSrnModelVelocityAlignment α)
    (sys : ErkPropulsionOdeSystemVelocityAlignment α) (mpCell : CellData α)
    (area angle currentTime : α) (rng : RandomNumberGenerator α)
    (hsys : self.mpOdeSystem = some sys) (hready : IsReady self = true)
    (harea : mpCell "volume" = some area) (hangle : mpCell "theta_vi" = some angle) :
    SimulateToCurrentTime libm self mpCell currentTime rng =
      AbstractOdeSrnModel_SimulateToCurrentTime libm
        { self with
          mpOdeSystem := some
            { sys with mParameters := (sys.mParameters.set 0 area).set 6 angle } }
        currentTime rng ∧
    (∀ out rng2, SimulateToCurrentTime libm self mpCell currentTime rng = .ok (out, rng2) →
      ∃ outSys, out.mpOdeSystem = some outSys ∧
        outSys.mParameters = (sys.mParameters.set 0 area).set 6 angle) ∧
    (0 < self.mDt →
      ∃ out rng2, SimulateToCurrentTime libm self mpCell currentTime rng = .ok (out, rng2)) := by
  obtain ⟨sys2, hsys2, hnames, hlen, hstate⟩ := (IsReady_iff self).mp hready
  obtain rfl : sys2 = sys := Option.some.inj (hsys2.symm.trans hsys)
  have hcall := SimulateToCurrentTime_of_ready libm self sys2 mpCell area angle currentTime
    rng hsys hnames hlen harea hangle
  refine ⟨hcall, ?_, ?_⟩
  · intro out rng2 h
    rw [hcall] at h
    obtain ⟨⟨state, lastTime, rfl, -⟩, -⟩ := AbstractOdeSrnModel_SimulateToCurrentTime_inv
      libm _ _ currentTime rng rng2 out rfl h
    exact ⟨_, rfl, rfl⟩
  · intro hdt
    obtain ⟨state, lastTime, rng2, h, -, -⟩ :=
      AbstractOdeSrnModel_SimulateToCurrentTime_ok libm
        { self with
          mpOdeSystem := some
            { sys2 with mParameters := (sys2.mParameters.set 0 area).set 6 angle } }
        { sys2 with mParameters := (sys2.mParameters.set 0 area).set 6 angle }
        currentTime rng rfl (by simp [hlen]) hstate hdt
    exact ⟨_, rng2, hcall.trans h⟩

/-- C3, amended. Every call of `SimulateToCurrentTime()` on a Ready driver refreshes,
before integrating, the area and the velocity-angle parameter (slots 0 and 6) from the
cell's data store, and no other: the call is the base-class integration run on the
prior parameter vector with the store's `"volume"` written to slot 0 and its
`"theta_vi"` to slot 6; that vector is the one held whenever the call returns, and the
call returns when the solver step is positive. -/
theorem SimulateToCurrentTime_parameters (libm : Libm α)
    (self : ErkPropulsionSrnModelVelocityAlignment α)
    (sys : ErkPropulsionOdeSystemVelocityAlignment α) (mpCell : CellData α)
    (area angle currentTime : α) (rng : RandomNumberGenerator α)
    (hsys : self.mpOdeSystem = some sys) (hready : IsReady self = true)
    (harea : mpCell "volume" = some area) (hangle : mpCell "theta_vi" = some angle) :
    SimulateToCurrentTime libm self mpCell currentTime rng =
      AbstractOdeSrnModel_SimulateToCurrentTime libm
        { self with
          mpOdeSystem := some
            { sys with mParameters := (sys.mParameters.set 0 area).set 6 angle } }
        currentTime rng ∧
    (∀ out rng2, SimulateToCurrentTime libm self mpCell currentTime rng = .ok (out, rng2) →
      ∃ outSys, out.mpOdeSystem = some outSys ∧
        outSys.mParameters = (sys.mParameters.set 0 area).set 6 angle) ∧
    (0 < self.mDt →
      ∃ out rng2, SimulateToCurrentTime libm self mpCell currentTime rng = .ok (out, rng2)) :=
  SimulateToCurrentTime_refreshes_two libm self sys mpCell area angle currentTime rng hsys
    hready harea hangle

/-- A concrete instance of C3 amended: parameters all 7 before the call, a store with
area 2 and velocity angle 3, integration from time 0 to time 5 with step 1. -/
theorem SimulateToCurrentTime_parameters_witness :
    ∃ out outSys rng2,
      SimulateToCurrentTime (Libm.mk Real.sqrt Real.sin)
        { mpOdeSolver := CellCycleModelOdeSolver.Instance.Initialise
          mpOdeSystem := some
            { mNumberOfStateVariables := 3
              mpSystemInfo := CellwiseOdeSystemInformation.Initialise
              mStateVariables := [fin 0, fin 1, fin 0]
              mParameters := [7, 7, 7, 7, 7, 7, 7, 7] }
          mLastTime := 0
          mDt := 1 }
        (fun key => if key = "volume" then some 2 else if key = "theta_vi" then some 3
          else none) 5 { deviates := fun _ => 0, drawn := 0 } = .ok (out, rng2) ∧
      out.mpOdeSystem = some outSys ∧ outSys.mParameters = [2, 7, 7, 7, 7, 7, 3, 7] := by
  have h := SimulateToCurrentTime_parameters (Libm.mk Real.sqrt Real.sin)
    { mpOdeSolver := CellCycleModelOdeSolver.Instance.Initialise
      mpOdeSystem := some
        { mNumberOfStateVariables := 3
          mpSystemInfo := CellwiseOdeSystemInformation.Initialise
          mStateVariables := [fin 0, fin 1, fin 0]
          mParameters := [7, 7, 7, 7, 7, 7, 7, 7] }
      mLastTime := 0
      mDt := 1 }
    _ (fun key => if key = "volume" then some 2 else if key = "theta_vi" then some 3
      else none) 2 3 5 { deviates := fun _ => 0, drawn := 0 }
    rfl (by simp [IsReady]) (by simp) (by simp)
  obtain ⟨out, rng2, hout⟩ := h.2.2 (by norm_num)
  obtain ⟨outSys, hsys, hparams⟩ := h.2.1 out rng2 hout
  exact ⟨out, outSys, rng2, hout, hsys, hparams⟩

/-- C3, as stated, fails. A driver is constructed and initialised from a store whose
relaxation time `"taul"` is 1; the store's `"taul"` then becomes 2 (and its area 3);
`SimulateToCurrentTime()` integrates to time 0.01 and returns with the parameter vector
`[3, 1, 1, 1, 0, 0.01, 0, 0]`: the area is refreshed, slot 1 still holds 1, not the
store's current 2. -/
theorem SimulateToCurrentTime_keeps_stale_taul :
    ∃ fresh ready out outSys rng2,
      ErkPropulsionSrnModelVelocityAlignment.new none (0 : ℝ) 0.01 = .ok fresh ∧
      Initialise fresh (CellData.ofList [("volume", 1), ("taul", 1), ("alpha", 1),
        ("beta", 1), ("Eta Std", 0), ("dt_ode", 0.01), ("theta_vi", 0), ("K", 0)])
        = .ok ready ∧
      SimulateToCurrentTime (Libm.mk Real.sqrt Real.sin) ready
        (CellData.ofList [("volume", 3), ("taul", 2), ("alpha", 1),
          ("beta", 1), ("Eta Std", 0), ("dt_ode", 0.01), ("theta_vi", 0), ("K", 0)])
        0.01 { deviates := fun _ => 0, drawn := 0 } = .ok (out, rng2) ∧
      out.mpOdeSystem = some outSys ∧
      outSys.mParameters = [3, 1, 1, 1, 0, 0.01, 0, 0] ∧
      (CellData.ofList [("volume", 3), ("taul", 2), ("alpha", 1),
          ("beta", 1), ("Eta Std", 0), ("dt_ode", 0.01), ("theta_vi", 0), ("K", 0)] :
        CellData ℝ) "taul" = some 2 := by
  obtain ⟨ready, hsys, hdt, hinit⟩ : ∃ ready : ErkPropulsionSrnModelVelocityAlignment ℝ,
      ready.mpOdeSystem = some
        { mNumberOfStateVariables := 3
          mpSystemInfo :=
            { (CellwiseOdeSystemInformation.Initialise : OdeSystemInformation ℝ) with
              mInitialConditions := [0, 1.0, 0] }
          mStateVariables := [fin 0, fin 1.0, fin 0]
          mParameters := [1.0, 1, 1, 1, 0, 0.01, 0.0, 0] } ∧
      ready.mDt = 0.01 ∧
      Initialise ({ mpOdeSolver := CellCycleModelOdeSolver.Instance.Initialise,
                    mpOdeSystem := none, mLastTime := 0, mDt := 0.01 } :
          ErkPropulsionSrnModelVelocityAlignment ℝ)
        (CellData.ofList [("volume", 1), ("taul", 1), ("alpha", 1),
          ("beta", 1), ("Eta Std", 0), ("dt_ode", 0.01), ("theta_vi", 0), ("K", 0)])
        = Except.ok ready :=
    ⟨_, rfl, rfl, Initialise_of_items _ _ 1 1 1 0 0.01 0 rfl rfl rfl rfl rfl rfl⟩
  have h := SimulateToCurrentTime_refreshes_two (Libm.mk Real.sqrt Real.sin) ready _
    (CellData.ofList [("volume", 3), ("taul", 2), ("alpha", 1),
        ("beta", 1), ("Eta Std", 0), ("dt_ode", 0.01), ("theta_vi", 0), ("K", 0)])
    3 0 0.01 { deviates := fun _ => 0, drawn := 0 } hsys (by simp [IsReady, hsys]) rfl rfl
  obtain ⟨out, rng2, hcall⟩ := h.2.2 (by rw [hdt]; norm_num)
  obtain ⟨outSys, hout, hparams⟩ := h.2.1 out rng2 hcall
  exact ⟨_, ready, out, outSys, rng2, rfl, hinit, hcall, hout, by simpa using hparams, rfl⟩

/-- C4: the code does not do what the claim says. A driver is constructed, initialised
and `UpdateSrnVelocityAngles()` is run on a store whose velocity angle `"theta_vi"` is
1/2: the parameter named `"theta_vi"` then holds 1/2, and `GetCellVelocityAngle()`,
which asks for the parameter `"Theta_vi"`, ends in an exception. -/
theorem GetCellVelocityAngle_fails :
    ∃ fresh ready updated sys,
      ErkPropulsionSrnModelVelocityAlignment.new none (0 : ℚ) (1 / 100) = .ok fresh ∧
      Initialise fresh (CellData.ofList [("volume", 1), ("taul", 1), ("alpha", 1),
        ("beta", 1), ("Eta Std", 0), ("dt_ode", 1 / 100), ("theta_vi", 1 / 2), ("K", 1)])
        = .ok ready ∧
      UpdateSrnVelocityAngles ready (CellData.ofList [("volume", 1), ("taul", 1),
        ("alpha", 1), ("beta", 1), ("Eta Std", 0), ("dt_ode", 1 / 100), ("theta_vi", 1 / 2),
        ("K", 1)]) = .ok updated ∧
      updated.mpOdeSystem = some sys ∧ sys.GetParameter "theta_vi" = .ok (1 / 2) ∧
      GetCellVelocityAngle updated = .error (.UnknownParameterName "Theta_vi") := by
  obtain ⟨ready, hsys, hinit⟩ : ∃ ready : ErkPropulsionSrnModelVelocityAlignment ℚ,
      ready.mpOdeSystem = some
        { mNumberOfStateVariables := 3
          mpSystemInfo :=
            { (CellwiseOdeSystemInformation.Initialise : OdeSystemInformation ℚ) with
              mInitialConditions := [0, 1.0, 0] }
          mStateVariables := [fin 0, fin 1.0, fin 0]
          mParameters := [1.0, 1, 1, 1, 0, 1 / 100, 0.0, 1] } ∧
      Initialise ({ mpOdeSolver := CellCycleModelOdeSolver.Instance.Initialise,
                    mpOdeSystem := none, mLastTime := 0, mDt := 1 / 100 } :
          ErkPropulsionSrnModelVelocityAlignment ℚ)
        (CellData.ofList [("volume", 1), ("taul", 1), ("alpha", 1), ("beta", 1),
          ("Eta Std", 0), ("dt_ode", 1 / 100), ("theta_vi", 1 / 2), ("K", 1)])
        = Except.ok ready :=
    ⟨_, rfl, Initialise_of_items _ _ 1 1 1 0 (1 / 100) 1 rfl rfl rfl rfl rfl rfl⟩
  have hupdate := UpdateSrnVelocityAngles_of_ready ready _
    (CellData.ofList [("volume", 1), ("taul", 1), ("alpha", 1), ("beta", 1),
      ("Eta Std", 0), ("dt_ode", 1 / 100), ("theta_vi", 1 / 2), ("K", 1)])
    (1 / 2 : ℚ) hsys rfl rfl rfl
  refine ⟨_, ready, _, _, rfl, hinit, hupdate, rfl, ?_, ?_⟩
  · rfl
  · exact GetCellVelocityAngle_of_ready _ _ rfl rfl

end Integration

/-! ## Properties of the dynamics -/

section Dynamics

variable {α : Type} [LinearOrderedField α]

/-- One sub-step of the solver on a state of three and a parameter vector of eight
entries: every entry moves by its derivative times the step. -/
theorem eulerSubStep_eq (libm : Libm α)
    (area taul a b eta_std dt_ode theta_vi K t stepDt : α) (theta erk target_area : Dbl α)
    (rng : RandomNumberGenerator α) :
    eulerSubStep libm [area, taul, a, b, eta_std, dt_ode, theta_vi, K] t stepDt
      [theta, erk, target_area] rng =
    .ok ([theta + (fin eta_std * Dbl.sqrt libm (fin 2)
            * Dbl.sqrt libm (Dbl.divBy (fin 1) dt_ode) * fin (rng.deviates rng.drawn)
            + fin K * Dbl.sin libm (fin theta_vi - theta)) * fin stepDt,
          erk + (-erk - Dbl.pow erk 3 + fin b * (fin area - fin 1)) * fin stepDt,
          target_area + Dbl.divBy ((fin 1 - target_area) - fin a * erk) taul * fin stepDt],
      { rng with drawn := rng.drawn + 1 }) := rfl

/-- The theta derivative without noise and without alignment, on a positive ODE step. -/
theorem dTheta_of_zero_noise_zero_alignment (libm : Libm α) (dt_ode theta_vi deviate : α)
    (theta : Dbl α) (hdt : 0 < dt_ode) (htheta : theta ≠ nonfinite) :
    fin (0 : α) * Dbl.sqrt libm (fin 2) * Dbl.sqrt libm (Dbl.divBy (fin 1) dt_ode)
      * fin deviate + fin (0 : α) * Dbl.sin libm (fin theta_vi - theta) = fin 0 := by
  rw [Dbl.sqrt_one_divBy, if_pos hdt, Dbl.sqrt_fin_of_nonneg libm (zero_le_two : (0 : α) ≤ 2)]
  cases theta with
  | nonfinite => exact absurd rfl htheta
  | fin x => simp

/-- Without noise and alignment a sub-step of any length leaves a finite theta as it
is. -/
theorem eulerSubStep_theta_constant (libm : Libm α)
    (cellArea tau alpha beta dtOde thetaVi theta t stepDt : α) (signal targetArea : Dbl α)
    (rng : RandomNumberGenerator α) (hdt : 0 < dtOde) :
    ∃ signal2 targetArea2,
      eulerSubStep libm [cellArea, tau, alpha, beta, 0, dtOde, thetaVi, 0] t stepDt
        [fin theta, signal, targetArea] rng =
      .ok ([fin theta, signal2, targetArea2], { rng with drawn := rng.drawn + 1 }) := by
  have hstep : fin theta + fin (0 : α) * fin stepDt = fin theta := by simp
  rw [eulerSubStep_eq,
    dTheta_of_zero_noise_zero_alignment libm dtOde thetaVi _ (fin theta) hdt (by simp), hstep]
  exact ⟨_, _, rfl⟩

theorem fixedStepUpdates_theta_constant (libm : Libm α)
    (cellArea tau alpha beta dtOde thetaVi theta stepDt : α) (hdt : 0 < dtOde)
    (steps : Nat) :
    ∀ (t : α) (signal targetArea : Dbl α) (rng : RandomNumberGenerator α),
      ∃ signal2 targetArea2,
        fixedStepUpdates libm [cellArea, tau, alpha, beta, 0, dtOde, thetaVi, 0] stepDt steps t
          [fin theta, signal, targetArea] rng =
        .ok ([fin theta, signal2, targetArea2], { rng with drawn := rng.drawn + steps }) := by
  induction steps with
  | zero =>
    intro t signal targetArea rng
    exact ⟨signal, targetArea, rfl⟩
  | succ n ih =>
    intro t signal targetArea rng
    obtain ⟨s1, a1, h1⟩ := eulerSubStep_theta_constant libm cellArea tau alpha beta dtOde
      thetaVi theta t stepDt signal targetArea rng hdt
    obtain ⟨s2, a2, h2⟩ := ih (t + stepDt) s1 a1 { rng with drawn := rng.drawn + 1 }
    refine ⟨s2, a2, ?_⟩
    simp only [fixedStepUpdates, h1, Except.bind_ok, h2]
    simp [Nat.add_assoc, Nat.add_comm 1 n]

theorem advanceSteps_theta_constant (libm : Libm α)
    (cellArea tau alpha beta dtOde thetaVi theta toTime stepDt : α) (hdt : 0 < dtOde)
    (steps : Nat) :
    ∀ (t : α) (signal targetArea : Dbl α) (rng : RandomNumberGenerator α),
      ∃ signal2 targetArea2,
        advanceSteps libm [cellArea, tau, alpha, beta, 0, dtOde, thetaVi, 0] toTime stepDt
          steps t [fin theta, signal, targetArea] rng =
        .ok ([fin theta, signal2, targetArea2], { rng with drawn := rng.drawn + steps }) := by
  induction steps with
  | zero =>
    intro t signal targetArea rng
    exact ⟨signal, targetArea, rfl⟩
  | succ n ih =>
    intro t signal targetArea rng
    obtain ⟨s1, a1, h1⟩ := eulerSubStep_theta_constant libm cellArea tau alpha beta dtOde
      thetaVi theta t (min stepDt (toTime - t)) signal targetArea rng hdt
    obtain ⟨s2, a2, h2⟩ := ih (t + min stepDt (toTime - t)) s1 a1
      { rng with drawn := rng.drawn + 1 }
    refine ⟨s2, a2, ?_⟩
    simp only [advanceSteps, h1, Except.bind_ok, h2]
    simp [Nat.add_assoc, Nat.add_comm 1 n]

/-- C11. Zero noise, zero alignment: for every parameter vector with `etaStd = 0`,
`K = 0` and `dtOde > 0`, every state and every noise sample, the theta entry of
`EvaluateYDerivatives` is exactly 0; hence for every initial state, every step size and
every number of fixed-step updates `state += derivative * stepDt` (all of full length,
or with the last ones cut to what remains of an interval) theta after the integration
is the initial theta. -/
theorem theta_constant_of_zero_noise_zero_alignment (libm : Libm α)
    (cellArea tau alpha beta dtOde thetaVi theta time deviate : α) (signal targetArea : Dbl α)
    (hdt : 0 < dtOde) :
    (∃ dSignal dTargetArea,
      EvaluateYDerivatives libm [cellArea, tau, alpha, beta, 0, dtOde, thetaVi, 0] time
        [fin theta, signal, targetArea] deviate = .ok [fin 0, dSignal, dTargetArea]) ∧
    (∀ (stepDt : α) (steps : Nat) (rng : RandomNumberGenerator α),
      ∃ signal2 targetArea2 rng2,
        fixedStepUpdates libm [cellArea, tau, alpha, beta, 0, dtOde, thetaVi, 0] stepDt steps
          time [fin theta, signal, targetArea] rng =
        .ok ([fin theta, signal2, targetArea2], rng2)) ∧
    (∀ (toTime stepDt : α) (steps : Nat) (rng : RandomNumberGenerator α),
      ∃ signal2 targetArea2 rng2,
        advanceSteps libm [cellArea, tau, alpha, beta, 0, dtOde, thetaVi, 0] toTime stepDt
          steps time [fin theta, signal, targetArea] rng =
        .ok ([fin theta, signal2, targetArea2], rng2)) := by
  refine ⟨?_, ?_, ?_⟩
  · rw [EvaluateYDerivatives_eq,
      dTheta_of_zero_noise_zero_alignment libm dtOde thetaVi _ (fin theta) hdt (by simp)]
    exact ⟨_, _, rfl⟩
  · intro stepDt steps rng
    obtain ⟨s2, a2, h⟩ := fixedStepUpdates_theta_constant libm cellArea tau alpha beta dtOde
      thetaVi theta stepDt hdt steps time signal targetArea rng
    exact ⟨s2, a2, _, h⟩
  · intro toTime stepDt steps rng
    obtain ⟨s2, a2, h⟩ := advanceSteps_theta_constant libm cellArea tau alpha beta dtOde
      thetaVi theta toTime stepDt hdt steps time signal targetArea rng
    exact ⟨s2, a2, _, h⟩

/-- A concrete instance of C11: theta 3, noise sample 5, the default ODE step. -/
theorem theta_constant_of_zero_noise_zero_alignment_witness :
    ∃ dSignal dTargetArea,
      EvaluateYDerivatives (Libm.mk Real.sqrt Real.sin) [1, 1, 1, 1, 0, 0.01, 2, 0] 0
        [fin 3, fin 1, fin 1] 5 = .ok [fin 0, dSignal, dTargetArea] :=
  (theta_constant_of_zero_noise_zero_alignment (Libm.mk Real.sqrt Real.sin) 1 1 1 1 0.01 2 3
    0 5 (fin 1) (fin 1) (by norm_num)).1

/-- One update of the concrete scenario (area, tau, alpha, beta all 1, no noise, no
alignment, step 0.01): theta and signal stay 0, and the distance of the target area
from 1 shrinks by the factor 99/100. -/
theorem scenario_eulerSubStep (libm : Libm α) (t c : α) (rng : RandomNumberGenerator α) :
    eulerSubStep libm [1, 1, 1, 1, 0, 0.01, 0, 0] t 0.01 [fin 0, fin 0, fin (1 - c)] rng =
      .ok ([fin 0, fin 0, fin (1 - c * (99 / 100))], { rng with drawn := rng.drawn + 1 }) := by
  have hdt : (0 : α) < 0.01 := by norm_num
  have h0 : fin (0 : α) + fin (0 : α) * fin (0.01 : α) = fin 0 := by simp
  have h1 : fin (0 : α) + (-fin (0 : α) - Dbl.pow (fin (0 : α)) 3
      + fin (1 : α) * (fin (1 : α) - fin (1 : α))) * fin (0.01 : α) = fin 0 := by
    simp
  have h2 : fin (1 - c) + Dbl.divBy ((fin (1 : α) - fin (1 - c)) - fin (1 : α) * fin (0 : α))
      (1 : α) * fin (0.01 : α) = fin (1 - c * (99 / 100)) := by
    rw [Dbl.fin_mul_fin, Dbl.fin_sub_fin, Dbl.fin_sub_fin,
      Dbl.divBy_fin_of_ne _ (one_ne_zero : (1 : α) ≠ 0), Dbl.fin_mul_fin, Dbl.fin_add_fin]
    congr 1
    norm_num
    ring
  rw [eulerSubStep_eq,
    dTheta_of_zero_noise_zero_alignment libm 0.01 0 _ (fin 0) hdt (by simp), h0, h1, h2]

/-- The concrete scenario after `steps` updates: the target area is at distance
`c * (99/100)^steps` from 1 when it started at distance `c`. -/
theorem scenario_fixedStepUpdates (libm : Libm α) (steps : Nat) :
    ∀ (t c : α) (rng : RandomNumberGenerator α),
      fixedStepUpdates libm [1, 1, 1, 1, 0, 0.01, 0, 0] 0.01 steps t
        [fin 0, fin 0, fin (1 - c)] rng =
      .ok ([fin 0, fin 0, fin (1 - c * (99 / 100) ^ steps)],
        { rng with drawn := rng.drawn + steps }) := by
  induction steps with
  | zero =>
    intro t c rng
    simp [fixedStepUpdates, pure, Except.pure]
  | succ n ih =>
    intro t c rng
    simp only [fixedStepUpdates, scenario_eulerSubStep, Except.bind_ok, ih]
    have hc : c * (99 / 100) * (99 / 100) ^ n = c * (99 / 100) ^ (n + 1) := by ring
    simp [hc, Nat.add_assoc, Nat.add_comm 1 n]

/-- C12, as stated, fails: in the concrete scenario, after 100 updates of step 0.01
from `[0, 0, 0]` the signal is 0 and the target area is `1 - (99/100)^100`, which is
further than 0.01 from its fixed point 1. -/
theorem scenario_targetArea_not_within_hundredth :
    fixedStepUpdates (Libm.mk Real.sqrt Real.sin) [1, 1, 1, 1, 0, 0.01, 0, 0] 0.01 100 0
        [fin 0, fin 0, fin 0] { deviates := fun n => (n : ℝ), drawn := 0 } =
      .ok ([fin 0, fin 0, fin (1 - (99 / 100) ^ 100)],
        { deviates := fun n => (n : ℝ), drawn := 100 }) ∧
    ¬ |(1 - (99 / 100 : ℝ) ^ 100) - 1| ≤ 0.01 := by
  constructor
  · have h := scenario_fixedStepUpdates (Libm.mk Real.sqrt Real.sin) 100 0 1
      { deviates := fun n => (n : ℝ), drawn := 0 }
    simpa using h
  · rw [abs_le]
    norm_num

/-- C12, amended. In the concrete scenario (state `[0, 0, 0]`, area, tau, alpha, beta all
1, `etaStd = 0`, `dtOde = 0.01`, `thetaVi = 0`, `K = 0`), 100 updates
`state += EvaluateYDerivatives(state) * 0.01` return, for every start time and every
sequence of random deviates, the state `[0, 0, 1 - (99/100)^100]`: the final signal is 0,
within 0.01 of its fixed point 0, and the final target area is at distance `(99/100)^100`
from its fixed point 1, a distance between 0.36 and 0.37. -/
theorem scenario_final_state (libm : Libm α) (t : α) (rng : RandomNumberGenerator α) :
    fixedStepUpdates libm [1, 1, 1, 1, 0, 0.01, 0, 0] 0.01 100 t [fin 0, fin 0, fin 0] rng =
      .ok ([fin 0, fin 0, fin (1 - (99 / 100) ^ 100)],
        { rng with drawn := rng.drawn + 100 }) ∧
    |(0 : α) - 0| ≤ 0.01 ∧
    |(1 - (99 / 100 : α) ^ 100) - 1| = (99 / 100) ^ 100 ∧
    (0.36 : α) < (99 / 100) ^ 100 ∧ (99 / 100 : α) ^ 100 < 0.37 := by
  refine ⟨?_, by norm_num, ?_, by norm_num, by norm_num⟩
  · have h := scenario_fixedStepUpdates libm 100 t 1 rng
    simpa using h
  · rw [sub_sub_cancel_left, abs_neg, abs_of_pos (by positivity)]

/-- The signal entry of one sub-step of length 0.01 with `beta = 0`. -/
theorem eulerSubStep_signal (libm : Libm α)
    (cellArea tau alpha etaStd dtOde thetaVi K t s : α) (theta targetArea : Dbl α)
    (rng : RandomNumberGenerator α) :
    ∃ theta2 targetArea2,
      eulerSubStep libm [cellArea, tau, alpha, 0, etaStd, dtOde, thetaVi, K] t 0.01
        [theta, fin s, targetArea] rng =
      .ok ([theta2, fin (s * (1 - (1 + s ^ 2) / 100)), targetArea2],
        { rng with drawn := rng.drawn + 1 }) := by
  have h : fin s + (-fin s - Dbl.pow (fin s) 3 + fin (0 : α) * (fin cellArea - fin 1))
      * fin (0.01 : α) = fin (s * (1 - (1 + s ^ 2) / 100)) := by
    simp only [Dbl.fin_mul_fin, Dbl.fin_sub_fin, Dbl.neg_fin, Dbl.pow_fin, Dbl.fin_add_fin]
    congr 1
    norm_num
    ring
  rw [eulerSubStep_eq, h]
  exact ⟨_, _, rfl⟩

/-- The factor of the signal update is of size below 1 for a signal of square below
199. -/
theorem signal_factor_lt_one (s : α) (hs : s ^ 2 < 199) : |1 - (1 + s ^ 2) / 100| < 1 := by
  rw [abs_lt]
  constructor
  · linarith
  · have := sq_nonneg s
    linarith

/-- The factor of the signal update is of size above 1 for a signal of square above
199. -/
theorem one_lt_signal_factor (s : α) (hs : 199 < s ^ 2) : 1 < |1 - (1 + s ^ 2) / 100| := by
  rw [lt_abs]
  right
  linarith

/-- C15, as stated, fails: with `beta = 0` and the step 0.01, from the signal 20 one
update gives the signal -60.2: the signal has moved away from 0, not toward it. -/
theorem signal_grows_from_twenty :
    eulerSubStep (Libm.mk Real.sqrt Real.sin) [1, 1, 1, 0, 0, 0.01, 0, 0] 0 0.01
        [fin 0, fin 20, fin 1] { deviates := fun _ => 0, drawn := 0 } =
      .ok ([fin 0, fin (-60.2), fin 0.8], { deviates := fun _ => 0, drawn := 1 }) ∧
    ¬ |(-60.2 : ℝ)| < |20| := by
  have hdt : (0 : ℝ) < 0.01 := by norm_num
  have h0 : fin (0 : ℝ) + fin (0 : ℝ) * fin (0.01 : ℝ) = fin 0 := by simp
  have h1 : fin (20 : ℝ) + (-fin (20 : ℝ) - Dbl.pow (fin (20 : ℝ)) 3
      + fin (0 : ℝ) * (fin (1 : ℝ) - fin (1 : ℝ))) * fin (0.01 : ℝ) = fin (-60.2) := by
    simp only [Dbl.fin_mul_fin, Dbl.fin_sub_fin, Dbl.neg_fin, Dbl.pow_fin, Dbl.fin_add_fin]
    congr 1
    norm_num
  have h2 : fin (1 : ℝ) + Dbl.divBy ((fin (1 : ℝ) - fin (1 : ℝ)) - fin (1 : ℝ) * fin (20 : ℝ))
      (1 : ℝ) * fin (0.01 : ℝ) = fin 0.8 := by
    rw [Dbl.fin_mul_fin, Dbl.fin_sub_fin, Dbl.fin_sub_fin,
      Dbl.divBy_fin_of_ne _ (one_ne_zero : (1 : ℝ) ≠ 0), Dbl.fin_mul_fin, Dbl.fin_add_fin]
    congr 1
    norm_num
  constructor
  · rw [eulerSubStep_eq,
      dTheta_of_zero_noise_zero_alignment _ 0.01 0 _ (fin 0) hdt (by simp), h0, h1, h2]
  · rw [abs_of_neg (by norm_num), abs_of_pos (by norm_num)]
    norm_num

/-- C15, amended. Signal stability: with `beta = 0` (any cell area), one update of the
fixed-step scheme at the step 0.01 takes the signal `s` to `s + 0.01 * (-s - s^3)`,
which is `s * (1 - (1 + s^2)/100)`, with no clamping; the signal 0 stays at 0; a signal
`s ≠ 0` with `s^2 < 199` moves strictly toward 0, and its square stays below 199, so that
the same holds for every later update; a signal with `s^2 > 199` moves strictly away
from 0. -/
theorem signal_relaxes_below_bound (libm : Libm α)
    (cellArea tau alpha etaStd dtOde thetaVi K t s : α) (theta targetArea : Dbl α)
    (rng : RandomNumberGenerator α) :
    (∃ theta2 targetArea2,
      eulerSubStep libm [cellArea, tau, alpha, 0, etaStd, dtOde, thetaVi, K] t 0.01
        [theta, fin s, targetArea] rng =
      .ok ([theta2, fin (s * (1 - (1 + s ^ 2) / 100)), targetArea2],
        { rng with drawn := rng.drawn + 1 })) ∧
    s * (1 - (1 + s ^ 2) / 100) = s + 0.01 * (-s - s ^ 3) ∧
    (s = 0 → s * (1 - (1 + s ^ 2) / 100) = 0) ∧
    (s ≠ 0 → s ^ 2 < 199 →
      |s * (1 - (1 + s ^ 2) / 100)| < |s| ∧ (s * (1 - (1 + s ^ 2) / 100)) ^ 2 < 199) ∧
    (199 < s ^ 2 → |s| < |s * (1 - (1 + s ^ 2) / 100)|) := by
  refine ⟨eulerSubStep_signal libm cellArea tau alpha etaStd dtOde thetaVi K t s theta
    targetArea rng, ?_, ?_, ?_, ?_⟩
  · norm_num
    ring
  · rintro rfl
    simp
  · intro hs hlt
    have habs : |s * (1 - (1 + s ^ 2) / 100)| < |s| := by
      rw [abs_mul]
      exact mul_lt_of_lt_one_right (abs_pos.mpr hs) (signal_factor_lt_one s hlt)
    exact ⟨habs, lt_trans (sq_lt_sq.mpr habs) hlt⟩
  · intro hlt
    have hs : s ≠ 0 := by
      rintro rfl
      norm_num at hlt
    rw [abs_mul]
    exact lt_mul_of_one_lt_right (abs_pos.mpr hs) (one_lt_signal_factor s hlt)

/-- A concrete instance of C15 amended: from the signal 10 one update gives the signal
-0.1, nearer to 0. -/
theorem signal_relaxes_below_bound_witness :
    |(10 : ℝ) * (1 - (1 + 10 ^ 2) / 100)| < |10| ∧
      ((10 : ℝ) * (1 - (1 + 10 ^ 2) / 100)) ^ 2 < 199 :=
  (signal_relaxes_below_bound (Libm.mk Real.sqrt Real.sin) 1 1 1 0 0.01 0 0 0 10 (fin 0)
    (fin 1) { deviates := fun _ => 0, drawn := 0 }).2.2.2.1 (by norm_num) (by norm_num)

/-- The theta derivative without noise, on a positive ODE step: the alignment torque
alone. -/
theorem dTheta_of_zero_noise (libm : Libm α) (dt_ode theta_vi K deviate theta : α)
    (hdt : 0 < dt_ode) :
    fin (0 : α) * Dbl.sqrt libm (fin 2) * Dbl.sqrt libm (Dbl.divBy (fin 1) dt_ode)
      * fin deviate + fin K * Dbl.sin libm (fin theta_vi - fin theta) =
    fin (K * libm.sin (theta_vi - theta)) := by
  rw [Dbl.sqrt_one_divBy, if_pos hdt, Dbl.sqrt_fin_of_nonneg libm (zero_le_two : (0 : α) ≤ 2)]
  simp

/-- The sine does not vanish at a phase offset strictly between `-π` and `π` other
than 0. -/
theorem sin_ne_zero_of_offset (d : ℝ) (h1 : -Real.pi < d) (h2 : d < Real.pi) (h0 : d ≠ 0) :
    Real.sin d ≠ 0 := by
  rcases lt_or_gt_of_ne h0 with h | h
  · exact (Real.sin_neg_of_neg_of_neg_pi_lt h h1).ne
  · exact (Real.sin_pos_of_pos_of_lt_pi h h2).ne'

/-- C16. Alignment: with `etaStd = 0`, `dtOde > 0` and `K > 0`, for every `theta` and
`thetaVi` the theta derivative is `K * sin(thetaVi - theta)` for every noise sample; it
is the same when `theta` or `thetaVi` is shifted by `2π`; it is 0 at `theta = thetaVi`,
positive when `thetaVi - theta` lies in `(0, π)`, negative when it lies in `(-π, 0)`;
and at a phase offset in `(-π, π)` other than 0 its magnitude is strictly larger for a
larger `K`. -/
theorem alignment_torque
    (cellArea tau alpha beta dtOde thetaVi K theta signal targetArea time : ℝ)
    (hdt : 0 < dtOde) (hK : 0 < K) :
    (∃ dSignal dTargetArea, ∀ n : ℝ,
      EvaluateYDerivatives (Libm.mk Real.sqrt Real.sin)
          [cellArea, tau, alpha, beta, 0, dtOde, thetaVi, K] time
          [fin theta, fin signal, fin targetArea] n =
        .ok [fin (K * Real.sin (thetaVi - theta)), dSignal, dTargetArea] ∧
      EvaluateYDerivatives (Libm.mk Real.sqrt Real.sin)
          [cellArea, tau, alpha, beta, 0, dtOde, thetaVi, K] time
          [fin (theta + 2 * Real.pi), fin signal, fin targetArea] n =
        .ok [fin (K * Real.sin (thetaVi - theta)), dSignal, dTargetArea] ∧
      EvaluateYDerivatives (Libm.mk Real.sqrt Real.sin)
          [cellArea, tau, alpha, beta, 0, dtOde, thetaVi + 2 * Real.pi, K] time
          [fin theta, fin signal, fin targetArea] n =
        .ok [fin (K * Real.sin (thetaVi - theta)), dSignal, dTargetArea]) ∧
    (theta = thetaVi → K * Real.sin (thetaVi - theta) = 0) ∧
    (0 < thetaVi - theta → thetaVi - theta < Real.pi →
      0 < K * Real.sin (thetaVi - theta)) ∧
    (-Real.pi < thetaVi - theta → thetaVi - theta < 0 →
      K * Real.sin (thetaVi - theta) < 0) ∧
    (∀ K2 : ℝ, K < K2 → -Real.pi < thetaVi - theta → thetaVi - theta < Real.pi →
      thetaVi - theta ≠ 0 →
      |K * Real.sin (thetaVi - theta)| < |K2 * Real.sin (thetaVi - theta)|) := by
  refine ⟨⟨-fin signal - Dbl.pow (fin signal) 3 + fin beta * (fin cellArea - fin 1),
    Dbl.divBy ((fin 1 - fin targetArea) - fin alpha * fin signal) tau, fun n => ⟨?_, ?_, ?_⟩⟩,
    ?_, ?_, ?_, ?_⟩
  · rw [EvaluateYDerivatives_eq, dTheta_of_zero_noise _ dtOde thetaVi K n theta hdt]
  · rw [EvaluateYDerivatives_eq, dTheta_of_zero_noise _ dtOde thetaVi K n _ hdt]
    have h : thetaVi - (theta + 2 * Real.pi) = thetaVi - theta - 2 * Real.pi := by ring
    simp only [h, Real.sin_sub_two_pi]
  · rw [EvaluateYDerivatives_eq, dTheta_of_zero_noise _ dtOde _ K n theta hdt]
    have h : thetaVi + 2 * Real.pi - theta = thetaVi - theta + 2 * Real.pi := by ring
    simp only [h, Real.sin_add_two_pi]
  · rintro rfl
    simp
  · intro h1 h2
    exact mul_pos hK (Real.sin_pos_of_pos_of_lt_pi h1 h2)
  · intro h1 h2
    exact mul_neg_of_pos_of_neg hK (Real.sin_neg_of_neg_of_neg_pi_lt h2 h1)
  · intro K2 hK2 h1 h2 h0
    have hsin : 0 < |Real.sin (thetaVi - theta)| :=
      abs_pos.mpr (sin_ne_zero_of_offset _ h1 h2 h0)
    rw [abs_mul, abs_mul, abs_of_pos hK, abs_of_pos (hK.trans hK2)]
    exact mul_lt_mul_of_pos_right hK2 hsin

/-- A concrete instance of C16: alignment strength 2, velocity angle `π/2`, theta 0: the
theta derivative is positive. -/
theorem alignment_torque_witness : 0 < (2 : ℝ) * Real.sin (Real.pi / 2 - 0) :=
  (alignment_torque 1 1 1 1 0.01 (Real.pi / 2) 2 0 0 1 0 (by norm_num) (by norm_num)).2.2.1
    (by linarith [Real.pi_pos]) (by linarith [Real.pi_pos])

end Dynamics

/-! ## Construction defaults -/

section Defaults

variable {α : Type} [LinearOrderedField α]

open ErkPropulsionSrnModelVelocityAlignment

/-- C13. Construction defaults: an ODE system constructed without a state vector, or with
one of three entries, has a parameter vector of length exactly 8 whose entries in slot
order are 1, 1, 1, 1, 0.1, 0.01, 0, 0, and a name table that registers exactly the 8
parameter names `Cell Area, taul, alpha, beta, Eta Std, dt_ode, theta_vi, K` in that
order. -/
theorem new_construction_defaults (stateVariables : List (Dbl α))
    (h : stateVariables = [] ∨ stateVariables.length = 3) :
    ∃ sys, ErkPropulsionOdeSystemVelocityAlignment.new stateVariables = .ok sys ∧
      sys.mParameters = [1, 1, 1, 1, 0.1, 0.01, 0, 0] ∧ sys.mParameters.length = 8 ∧
      sys.mpSystemInfo.mParameterNames =
        ["Cell Area", "taul", "alpha", "beta", "Eta Std", "dt_ode", "theta_vi", "K"] ∧
      sys.mpSystemInfo.mParameterNames.length = 8 := by
  have hone : (1.0 : α) = 1 := by norm_num
  have hzero : (0.0 : α) = 0 := by norm_num
  rcases h with rfl | h
  · exact ⟨_, ErkPropulsionOdeSystemVelocityAlignment.new_nil, by simp [hone, hzero], rfl,
      rfl, rfl⟩
  · exact ⟨_, ErkPropulsionOdeSystemVelocityAlignment.new_of_length _ h,
      by simp [hone, hzero], rfl, rfl, rfl⟩

/-- A concrete instance of C13: construction from the state vector `[2, 3, 5]`. -/
theorem new_construction_defaults_witness :
    ∃ sys, ErkPropulsionOdeSystemVelocityAlignment.new [fin (2 : ℚ), fin 3, fin 5] = .ok sys ∧
      sys.mParameters = [1, 1, 1, 1, 0.1, 0.01, 0, 0] ∧ sys.mParameters.length = 8 ∧
      sys.mpSystemInfo.mParameterNames =
        ["Cell Area", "taul", "alpha", "beta", "Eta Std", "dt_ode", "theta_vi", "K"] ∧
      sys.mpSystemInfo.mParameterNames.length = 8 :=
  new_construction_defaults [fin (2 : ℚ), fin 3, fin 5] (Or.inr rfl)

/-- C14: the code does not do what the claim says. The ODE system constructed without a
state vector has the default initial conditions `[0, 1, 0]`: the constructor sets the
one of state variable 1 three times and leaves those of state variables 0 and 2 at 0.
After the driver's `Initialise()`, `GetTheta()` and `GetTargetArea()` return 0 and only
`GetErk()` returns 1. -/
theorem Initialise_default_state :
    ∃ sys fresh ready,
      ErkPropulsionOdeSystemVelocityAlignment.new ([] : List (Dbl ℚ)) = .ok sys ∧
      sys.mpSystemInfo.mInitialConditions = [0, 1, 0] ∧
      ErkPropulsionSrnModelVelocityAlignment.new none (0 : ℚ) (1 / 100) = .ok fresh ∧
      Initialise fresh (CellData.ofList [("volume", 1), ("taul", 1), ("alpha", 1),
        ("beta", 1), ("Eta Std", 0), ("dt_ode", 1 / 100), ("theta_vi", 0), ("K", 0)])
        = .ok ready ∧
      GetTheta ready = .ok (fin 0) ∧ GetErk ready = .ok (fin 1) ∧
      GetTargetArea ready = .ok (fin 0) := by
  have hone : (1.0 : ℚ) = 1 := by norm_num
  refine ⟨_, _, _, ErkPropulsionOdeSystemVelocityAlignment.new_nil, by simp [hone], rfl,
    Initialise_of_items _ _ 1 1 1 0 (1 / 100) 0 rfl rfl rfl rfl rfl rfl, rfl, ?_, rfl⟩
  simp [GetErk, odeSystem, vecAt, bind, Except.bind, pure, Except.pure, hone]

end Defaults

/-! ## Names and slots -/

section Slots

variable {α : Type} [LinearOrderedField α]

open ErkPropulsionSrnModelVelocityAlignment

/-- Reading a vector after a write: the written slot holds the value, every other slot
what it held. -/
theorem vecAt_set {β : Type} (v : List β) (i j : Nat) (x : β) (hi : i < v.length) :
    vecAt (v.set i x) j = if j = i then .ok x else vecAt v j := by
  unfold vecAt
  by_cases h : j = i
  · subst h
    simp [hi]
  · simp [h, List.getElem?_set_ne (Ne.symm h)]

/-- A by-name write on a system with the name table of the constructor and eight
parameters: the slot of the name, in the order of the table, and only that slot, takes
the value; the state vector is as before. -/
theorem ErkPropulsionOdeSystemVelocityAlignment.SetParameter_slot
    (sys : ErkPropulsionOdeSystemVelocityAlignment α) (value : α)
    (hnames : sys.mpSystemInfo.mParameterNames =
      (CellwiseOdeSystemInformation.Initialise : OdeSystemInformation α).mParameterNames)
    (hlen : sys.mParameters.length = 8) (name : String) (slot : Nat)
    (hmem : (name, slot) ∈ [("Cell Area", 0), ("taul", 1), ("alpha", 2), ("beta", 3),
      ("Eta Std", 4), ("dt_ode", 5), ("theta_vi", 6), ("K", 7)]) :
    sys.SetParameter name value =
      .ok { sys with mParameters := sys.mParameters.set slot value } ∧ slot < 8 := by
  simp only [List.mem_cons, Prod.mk.injEq, List.mem_singleton, List.not_mem_nil,
    or_false] at hmem
  have hslot : ∀ (entry : String) (index : Nat), name = entry ∧ slot = index →
      findParameterName entry
        (CellwiseOdeSystemInformation.Initialise : OdeSystemInformation α).mParameterNames 0
          = some index → index < 8 →
      sys.SetParameter name value =
        .ok { sys with mParameters := sys.mParameters.set slot value } ∧ slot < 8 := by
    intro entry index hentry hfind hlt
    obtain ⟨rfl, rfl⟩ := hentry
    exact ⟨ErkPropulsionOdeSystemVelocityAlignment.SetParameter_of_index sys _ _ value
      (by rw [hnames]; exact hfind) (by omega), hlt⟩
  rcases hmem with h | h | h | h | h | h | h | h
  · exact hslot _ _ h rfl (by omega)
  · exact hslot _ _ h rfl (by omega)
  · exact hslot _ _ h rfl (by omega)
  · exact hslot _ _ h rfl (by omega)
  · exact hslot _ _ h rfl (by omega)
  · exact hslot _ _ h rfl (by omega)
  · exact hslot _ _ h rfl (by omega)
  · exact hslot _ _ h rfl (by omega)

/-- Running `SetSrnParams()` on a Ready driver writes the six items it reads into slots
1, 2, 3, 4, 5 and 7. -/
theorem ErkPropulsionSrnModelVelocityAlignment.SetSrnParams_of_ready
    (self : ErkPropulsionSrnModelVelocityAlignment α)
    (sys : ErkPropulsionOdeSystemVelocityAlignment α) (mpCell : CellData α)
    (taul alpha beta eta_std dt_ode K : α)
    (hsys : self.mpOdeSystem = some sys)
    (hnames : sys.mpSystemInfo.mParameterNames =
      (CellwiseOdeSystemInformation.Initialise : OdeSystemInformation α).mParameterNames)
    (hlen : sys.mParameters.length = 8)
    (h1 : mpCell "taul" = some taul) (h2 : mpCell "alpha" = some alpha)
    (h3 : mpCell "beta" = some beta) (h4 : mpCell "Eta Std" = some eta_std)
    (h5 : mpCell "dt_ode" = some dt_ode) (h6 : mpCell "K" = some K) :
    SetSrnParams self mpCell =
      .ok { self with
            mpOdeSystem := some
              { sys with
                mParameters := (((((sys.mParameters.set 1 taul).set 2 alpha).set 3 beta).set 4
                  eta_std).set 5 dt_ode).set 7 K } } := by
  simp only [SetSrnParams, odeSystem_of_some self sys hsys, Except.bind_ok,
    CellData.GetItem_of_some mpCell _ _ h1, CellData.GetItem_of_some mpCell _ _ h2,
    CellData.GetItem_of_some mpCell _ _ h3, CellData.GetItem_of_some mpCell _ _ h4,
    CellData.GetItem_of_some mpCell _ _ h5, CellData.GetItem_of_some mpCell _ _ h6]
  simp [ErkPropulsionOdeSystemVelocityAlignment.SetParameter,
    OdeSystemInformation.GetParameterIndex, hnames, findParameterName, vecSet, hlen,
    CellwiseOdeSystemInformation.Initialise, bind, Except.bind, pure, Except.pure]

/-- C17. Name-to-slot consistency of marshalling: for every cell store that holds the
eight keys `volume, taul, alpha, beta, Eta Std, dt_ode, theta_vi, K`, `Initialise()`
followed by `UpdateSrnAreas()` and `UpdateSrnVelocityAngles()` returns and leaves the
parameter vector `[volume, taul, alpha, beta, Eta Std, dt_ode, theta_vi, K]`, from whose
slots `EvaluateYDerivatives` reads these quantities, and the state vector that the
allocation of the default state set; on every Ready driver each of the three marshalling
operations writes its slots and leaves the state vector as it was; and each by-name
write changes the slot of its name and no other slot, nor the state vector. -/
theorem marshalling_name_to_slot (self : ErkPropulsionSrnModelVelocityAlignment α)
    (mpCell : CellData α) (volume taul alpha beta etaStd dtOde thetaVi K : α)
    (h0 : mpCell "volume" = some volume) (h1 : mpCell "taul" = some taul)
    (h2 : mpCell "alpha" = some alpha) (h3 : mpCell "beta" = some beta)
    (h4 : mpCell "Eta Std" = some etaStd) (h5 : mpCell "dt_ode" = some dtOde)
    (h6 : mpCell "theta_vi" = some thetaVi) (h7 : mpCell "K" = some K) :
    (∃ d1 d2 d3 sys1 sys2 sys3,
      Initialise self mpCell = .ok d1 ∧ UpdateSrnAreas d1 mpCell = .ok d2 ∧
      UpdateSrnVelocityAngles d2 mpCell = .ok d3 ∧
      d1.mpOdeSystem = some sys1 ∧ d2.mpOdeSystem = some sys2 ∧ d3.mpOdeSystem = some sys3 ∧
      sys3.mParameters = [volume, taul, alpha, beta, etaStd, dtOde, thetaVi, K] ∧
      sys1.mStateVariables = sys1.mpSystemInfo.mInitialConditions.map fin ∧
      sys2.mStateVariables = sys1.mStateVariables ∧
      sys3.mStateVariables = sys1.mStateVariables ∧
      ∀ (libm : Libm α) (time deviate : α) (theta erk target_area : Dbl α),
        EvaluateYDerivatives libm sys3.mParameters time [theta, erk, target_area] deviate =
          .ok [fin etaStd * Dbl.sqrt libm (fin 2) * Dbl.sqrt libm (Dbl.divBy (fin 1) dtOde)
                * fin deviate + fin K * Dbl.sin libm (fin thetaVi - theta),
              -erk - Dbl.pow erk 3 + fin beta * (fin volume - fin 1),
              Dbl.divBy ((fin 1 - target_area) - fin alpha * erk) taul]) ∧
    (∀ (d : ErkPropulsionSrnModelVelocityAlignment α)
        (sys : ErkPropulsionOdeSystemVelocityAlignment α),
      d.mpOdeSystem = some sys → IsReady d = true →
      SetSrnParams d mpCell =
        .ok { d with
              mpOdeSystem := some
                { sys with
                  mParameters := (((((sys.mParameters.set 1 taul).set 2 alpha).set 3 beta).set
                    4 etaStd).set 5 dtOde).set 7 K } } ∧
      UpdateSrnAreas d mpCell =
        .ok { d with
              mpOdeSystem := some { sys with mParameters := sys.mParameters.set 0 volume } } ∧
      UpdateSrnVelocityAngles d mpCell =
        .ok { d with
              mpOdeSystem := some { sys with mParameters := sys.mParameters.set 6 thetaVi } }) ∧
    (∀ (sys : ErkPropulsionOdeSystemVelocityAlignment α) (value : α) (name : String)
        (slot : Nat),
      sys.mpSystemInfo.mParameterNames =
        (CellwiseOdeSystemInformation.Initialise : OdeSystemInformation α).mParameterNames →
      sys.mParameters.length = 8 →
      (name, slot) ∈ [("Cell Area", 0), ("taul", 1), ("alpha", 2), ("beta", 3),
        ("Eta Std", 4), ("dt_ode", 5), ("theta_vi", 6), ("K", 7)] →
      ∃ written, sys.SetParameter name value = .ok written ∧
        written.mStateVariables = sys.mStateVariables ∧
        ∀ j, vecAt written.mParameters j =
          if j = slot then .ok value else vecAt sys.mParameters j) := by
  refine ⟨?_, ?_, ?_⟩
  · have hinit := Initialise_of_items self mpCell taul alpha beta etaStd dtOde K h1 h2 h3 h4
      h5 h7
    have harea := UpdateSrnAreas_of_ready _ _ mpCell volume
      (rfl : ({ self with
        mpOdeSystem := some
          { mNumberOfStateVariables := 3
            mpSystemInfo :=
              { (CellwiseOdeSystemInformation.Initialise : OdeSystemInformation α) with
                mInitialConditions := [0, 1.0, 0] }
            mStateVariables := [fin 0, fin 1.0, fin 0]
            mParameters := [1.0, taul, alpha, beta, etaStd, dtOde, 0.0, K] } } :
        ErkPropulsionSrnModelVelocityAlignment α).mpOdeSystem = _) rfl rfl h0
    have hangle := UpdateSrnVelocityAngles_of_ready _ _ mpCell thetaVi
      (rfl : ({ self with
        mpOdeSystem := some
          { mNumberOfStateVariables := 3
            mpSystemInfo :=
              { (CellwiseOdeSystemInformation.Initialise : OdeSystemInformation α) with
                mInitialConditions := [0, 1.0, 0] }
            mStateVariables := [fin 0, fin 1.0, fin 0]
            mParameters := ([1.0, taul, alpha, beta, etaStd, dtOde, 0.0, K] : List α).set 0
              volume } } :
        ErkPropulsionSrnModelVelocityAlignment α).mpOdeSystem = _) rfl rfl h6
    refine ⟨_, _, _, _, _, _, hinit, harea, hangle, rfl, rfl, rfl, rfl, rfl, rfl, rfl, ?_⟩
    intro libm time deviate theta erk target_area
    exact EvaluateYDerivatives_eq libm volume taul alpha beta etaStd dtOde thetaVi K time
      deviate theta erk target_area
  · intro d sys hsys hready
    obtain ⟨sys2, hsys2, hnames, hlen, -⟩ := (IsReady_iff d).mp hready
    obtain rfl : sys2 = sys := Option.some.inj (hsys2.symm.trans hsys)
    exact ⟨SetSrnParams_of_ready d sys2 mpCell taul alpha beta etaStd dtOde K hsys hnames
        hlen h1 h2 h3 h4 h5 h7,
      UpdateSrnAreas_of_ready d sys2 mpCell volume hsys hnames hlen h0,
      UpdateSrnVelocityAngles_of_ready d sys2 mpCell thetaVi hsys hnames hlen h6⟩
  · intro sys value name slot hnames hlen hmem
    obtain ⟨hset, hslot⟩ := ErkPropulsionOdeSystemVelocityAlignment.SetParameter_slot sys
      value hnames hlen name slot hmem
    exact ⟨_, hset, rfl, fun j => vecAt_set sys.mParameters slot j value (by omega)⟩

/-- A concrete instance of C17: a store holding 2, 3, 5, 7, 11, 13, 17, 19 under the
eight keys. -/
theorem marshalling_name_to_slot_witness :
    ∃ d1 d2 d3 sys3,
      Initialise ({ mpOdeSolver := CellCycleModelOdeSolver.Instance.Initialise,
                    mpOdeSystem := none, mLastTime := 0, mDt := 1 } :
          ErkPropulsionSrnModelVelocityAlignment ℚ)
        (CellData.ofList [("volume", 2), ("taul", 3), ("alpha", 5), ("beta", 7),
          ("Eta Std", 11), ("dt_ode", 13), ("theta_vi", 17), ("K", 19)]) = .ok d1 ∧
      UpdateSrnAreas d1 (CellData.ofList [("volume", 2), ("taul", 3), ("alpha", 5),
        ("beta", 7), ("Eta Std", 11), ("dt_ode", 13), ("theta_vi", 17), ("K", 19)])
        = .ok d2 ∧
      UpdateSrnVelocityAngles d2 (CellData.ofList [("volume", 2), ("taul", 3), ("alpha", 5),
        ("beta", 7), ("Eta Std", 11), ("dt_ode", 13), ("theta_vi", 17), ("K", 19)])
        = .ok d3 ∧
      d3.mpOdeSystem = some sys3 ∧ sys3.mParameters = [2, 3, 5, 7, 11, 13, 17, 19] := by
  obtain ⟨d1, d2, d3, -, -, sys3, hd1, hd2, hd3, -, -, hsys3, hparams, -⟩ :=
    (marshalling_name_to_slot
      ({ mpOdeSolver := CellCycleModelOdeSolver.Instance.Initialise,
         mpOdeSystem := none, mLastTime := 0, mDt := 1 } :
        ErkPropulsionSrnModelVelocityAlignment ℚ)
      (CellData.ofList [("volume", 2), ("taul", 3), ("alpha", 5), ("beta", 7),
        ("Eta Std", 11), ("dt_ode", 13), ("theta_vi", 17), ("K", 19)])
      2 3 5 7 11 13 17 19 rfl rfl rfl rfl rfl rfl rfl rfl).1
  exact ⟨d1, d2, d3, sys3, hd1, hd2, hd3, hsys3, hparams⟩

end Slots

end ShearForceAligned
